import Mathlib

/-!
Verification development for the KM271 / 3964 protocol driver
(src/src/km271.cpp, src/include/km271.h).

Bytes are modelled as natural numbers (uint8_t values are < 256); the
running block check character (BCC) is the XOR of bytes, modelled with
Nat.xor.  Serial output is modelled as the list of bytes written, and
calls to handleRxBlock made by the byte-level state machine in
cyclicKM271 are modelled as explicit events.
-/

/-! ## Protocol constants (km271.h) -/

def KM_STX : Nat := 0x02
def KM_DLE : Nat := 0x10
def KM_ETX : Nat := 0x03
def KM_NAK : Nat := 0x15

def KM_RX_BUF_LEN : Nat := 20

/-- Reading byte i of a C byte array handed around as pointer + length;
out-of-range reads yield 0 in the model. -/
def dat (d : List Nat) (i : Nat) : Nat := d.getD i 0

/-- Arduino bitRead: bit i of x, LSB first. -/
def bitRead (x i : Nat) : Nat := x / 2 ^ i % 2

/-! ## Outbound encoder: sendTxBlock (km271.cpp lines 73-106) -/

/-- The byte-doubling loop of sendTxBlock: every payload byte is emitted,
and a DLE payload byte is emitted twice. -/
def stuffBytes : List Nat → List Nat
  | [] => []
  | b :: rest => if b = KM_DLE then b :: b :: stuffBytes rest else b :: stuffBytes rest

/-- BCC accumulated by sendTxBlock: XOR over every emitted byte (both
copies of a doubled DLE) and over the trailing DLE, ETX. -/
def txBcc (data : List Nat) : Nat :=
  List.foldl Nat.xor 0 (stuffBytes data ++ [KM_DLE, KM_ETX])

/-- Block framing done by sendTxBlock for payloads that are not a single
protocol byte: stuffed payload, then DLE, ETX, BCC. -/
def framed (data : List Nat) : List Nat :=
  stuffBytes data ++ [KM_DLE, KM_ETX, txBcc data]

-- known commands to KM271 (km271.cpp lines 26-29)
def KmCSTX : List Nat := [KM_STX]
def KmCDLE : List Nat := [KM_DLE]
def KmCNAK : List Nat := [KM_NAK]
def KmCLogMode : List Nat := [0xEE, 0x00, 0x00]

/-- sendTxBlock: a zero-length payload sends nothing; a single STX, DLE
or NAK is written verbatim; any other payload is framed with DLE
doubling, DLE ETX terminator and BCC. -/
def sendTxBlock : List Nat → List Nat
  | [] => []
  | [b] => if b = KM_STX ∨ b = KM_DLE ∨ b = KM_NAK then [b] else framed [b]
  | b :: rest => framed (b :: rest)

/-! ## Inbound frame state machine (cyclicKM271, km271.cpp lines 547-613) -/

/-- e_rxState from km271.h. -/
inductive RxState where
  | KM_RX_RESYNC
  | KM_RX_IDLE
  | KM_RX_ON
  | KM_RX_DLE
  | KM_RX_BCC
  deriving DecidableEq, Repr

/-- The byte-level receiver state: kmRxStatus, kmRxBcc and the first
kmRxBuf.len bytes of kmRxBuf.buf. -/
structure KmState where
  rxStatus : RxState
  bcc : Nat
  buf : List Nat
  deriving DecidableEq, Repr

/-- A call to handleRxBlock made by cyclicKM271: either a single control
byte seen in the RESYNC/IDLE states, or a BCC-validated block delivered
from the KM_RX_BCC state. -/
inductive RxEvent where
  | ctrl (b : Nat)
  | block (payload : List Nat)
  deriving DecidableEq, Repr

/-- Length of the buffer a handleRxBlock call reports. -/
def eventLen : RxEvent → Nat
  | .ctrl _ => 1
  | .block p => p.length

/-- Result of feeding bytes to the receiver: new state, the
handleRxBlock calls made, and the bytes written to the serial port. -/
structure RxOut where
  state : KmState
  events : List RxEvent
  tx : List Nat
  deriving DecidableEq, Repr

/-- One byte of the cyclicKM271 receive switch.  kmRxBcc is XORed with
the byte first; the KM_RX_IDLE branch then overwrites it with the byte
(the reset at the start of a block). -/
def rxStep (s : KmState) (b : Nat) : RxOut :=
  match s.rxStatus with
  | .KM_RX_RESYNC =>
      if b = KM_STX then
        ⟨⟨.KM_RX_IDLE, Nat.xor s.bcc b, [KM_STX]⟩, [.ctrl KM_STX], []⟩
      else
        ⟨⟨.KM_RX_RESYNC, Nat.xor s.bcc b, s.buf⟩, [], []⟩
  | .KM_RX_IDLE =>
      if b = KM_STX ∨ b = KM_DLE ∨ b = KM_NAK then
        ⟨⟨.KM_RX_IDLE, b, [b]⟩, [.ctrl b], []⟩
      else
        ⟨⟨.KM_RX_ON, b, [b]⟩, [], []⟩
  | .KM_RX_ON =>
      if b = KM_DLE then
        ⟨⟨.KM_RX_DLE, Nat.xor s.bcc b, s.buf⟩, [], []⟩
      else if KM_RX_BUF_LEN ≤ s.buf.length then
        ⟨⟨.KM_RX_RESYNC, Nat.xor s.bcc b, s.buf⟩, [], []⟩
      else
        ⟨⟨.KM_RX_ON, Nat.xor s.bcc b, s.buf ++ [b]⟩, [], []⟩
  | .KM_RX_DLE =>
      if b = KM_DLE then
        if KM_RX_BUF_LEN ≤ s.buf.length then
          ⟨⟨.KM_RX_RESYNC, Nat.xor s.bcc b, s.buf⟩, [], []⟩
        else
          ⟨⟨.KM_RX_ON, Nat.xor s.bcc b, s.buf ++ [b]⟩, [], []⟩
      else if b = KM_ETX then
        ⟨⟨.KM_RX_BCC, Nat.xor s.bcc b, s.buf⟩, [], []⟩
      else
        ⟨⟨.KM_RX_RESYNC, Nat.xor s.bcc b, s.buf⟩, [], []⟩
  | .KM_RX_BCC =>
      if Nat.xor s.bcc b = 0 then
        ⟨⟨.KM_RX_IDLE, Nat.xor s.bcc b, s.buf⟩, [.block s.buf], []⟩
      else
        ⟨⟨.KM_RX_IDLE, Nat.xor s.bcc b, s.buf⟩, [], sendTxBlock KmCNAK⟩

/-- Feed a list of bytes, one at a time, through rxStep. -/
def rxRun (s : KmState) : List Nat → RxOut
  | [] => ⟨s, [], []⟩
  | b :: rest =>
      let r1 := rxStep s b
      let r2 := rxRun r1.state rest
      ⟨r2.state, r1.events ++ r2.events, r1.tx ++ r2.tx⟩

/-- Power-on receiver state: kmRxStatus = KM_RX_RESYNC, kmRxBcc = 0,
empty buffer. -/
def kmInitState : KmState := ⟨.KM_RX_RESYNC, 0, []⟩

/-- Receiver in the idle state with clean bcc and buffer. -/
def kmIdleInit : KmState := ⟨.KM_RX_IDLE, 0, []⟩

/-- The payloads of the validated-block events in an event list. -/
def blockPayloads : List RxEvent → List (List Nat)
  | [] => []
  | .ctrl _ :: rest => blockPayloads rest
  | .block p :: rest => p :: blockPayloads rest

/-! ## Numeric decoders (km271.cpp lines 486-504) -/

/-- decode05cTemp: temperatures with 0.5 C resolution, raw byte / 2.
Floats are modelled as rationals (all values are exactly representable). -/
def decode05cTemp (data : Nat) : Rat := (data : Rat) / 2

/-- decodeNegTemp: values strictly greater than 128 are negative,
returned as -(256 - data); everything else is returned as-is. -/
def decodeNegTemp (data : Nat) : Rat :=
  if 128 < data then -((256 : Rat) - (data : Rat)) else (data : Rat)

/-! ## The status snapshot (s_km271_status, km271.h lines 68-108)

uint8_t fields are modelled as Nat, float fields as Rat. -/

/-- One name per field of the status snapshot. -/
inductive StatusField where
  | HeatingCircuitOperatingStates_1
  | HeatingCircuitOperatingStates_2
  | HeatingForwardTargetTemp
  | HeatingForwardActualTemp
  | RoomTargetTemp
  | RoomActualTemp
  | SwitchOnOptimizationTime
  | SwitchOffOptimizationTime
  | PumpPower
  | MixingValue
  | HeatingCurvePlus10
  | HeatingCurve0
  | HeatingCurveMinus10
  | HotWaterOperatingStates_1
  | HotWaterOperatingStates_2
  | HotWaterTargetTemp
  | HotWaterActualTemp
  | HotWaterOptimizationTime
  | HotWaterPumpStates
  | BoilerForwardTargetTemp
  | BoilerForwardActualTemp
  | BurnerSwitchOnTemp
  | BurnerSwitchOffTemp
  | BoilerIntegral_1
  | BoilerIntegral_2
  | BoilerErrorStates
  | BoilerOperatingStates
  | BurnerStates
  | ExhaustTemp
  | BurnerOperatingDuration_2
  | BurnerOperatingDuration_1
  | BurnerOperatingDuration_0
  | OutsideTemp
  | OutsideDampedTemp
  | ControllerVersionMain
  | ControllerVersionSub
  | Modul
  | ERR_Alarmstatus
  deriving DecidableEq, Fintype

/-- The C type of each snapshot field: uint8_t fields are Nat, float
fields are Rat. -/
@[reducible] def FieldTy : StatusField → Type
  | .HeatingCircuitOperatingStates_1 => Nat
  | .HeatingCircuitOperatingStates_2 => Nat
  | .HeatingForwardTargetTemp => Rat
  | .HeatingForwardActualTemp => Rat
  | .RoomTargetTemp => Rat
  | .RoomActualTemp => Rat
  | .SwitchOnOptimizationTime => Nat
  | .SwitchOffOptimizationTime => Nat
  | .PumpPower => Nat
  | .MixingValue => Nat
  | .HeatingCurvePlus10 => Rat
  | .HeatingCurve0 => Rat
  | .HeatingCurveMinus10 => Rat
  | .HotWaterOperatingStates_1 => Nat
  | .HotWaterOperatingStates_2 => Nat
  | .HotWaterTargetTemp => Rat
  | .HotWaterActualTemp => Rat
  | .HotWaterOptimizationTime => Nat
  | .HotWaterPumpStates => Nat
  | .BoilerForwardTargetTemp => Rat
  | .BoilerForwardActualTemp => Rat
  | .BurnerSwitchOnTemp => Rat
  | .BurnerSwitchOffTemp => Rat
  | .BoilerIntegral_1 => Nat
  | .BoilerIntegral_2 => Nat
  | .BoilerErrorStates => Nat
  | .BoilerOperatingStates => Nat
  | .BurnerStates => Nat
  | .ExhaustTemp => Rat
  | .BurnerOperatingDuration_2 => Nat
  | .BurnerOperatingDuration_1 => Nat
  | .BurnerOperatingDuration_0 => Nat
  | .OutsideTemp => Rat
  | .OutsideDampedTemp => Rat
  | .ControllerVersionMain => Nat
  | .ControllerVersionSub => Nat
  | .Modul => Nat
  | .ERR_Alarmstatus => Nat

instance (f : StatusField) : DecidableEq (FieldTy f) := by
  cases f <;> dsimp only [FieldTy] <;> infer_instance

/-- The status snapshot s_km271_status (km271.h lines 68-108), as a
typed record over its field names: a single-field assignment
(tmpState.X = v) is Function.update, and reading field f of snapshot s
is the application s f. -/
abbrev Status := ∀ f : StatusField, FieldTy f

/-- kmregister = (data[0] * 256) + data[1]. -/
def regOf (d : List Nat) : Nat := dat d 0 * 256 + dat d 1

/-- The snapshot field a given register identifier writes, if any.
Register identifiers not in this table (config registers, the 0x0400
keep-alive, unknown identifiers) write no field. -/
def fieldOfReg (r : Nat) : Option StatusField :=
  if r = 0x8000 then some .HeatingCircuitOperatingStates_1
  else if r = 0x8001 then some .HeatingCircuitOperatingStates_2
  else if r = 0x8002 then some .HeatingForwardTargetTemp
  else if r = 0x8003 then some .HeatingForwardActualTemp
  else if r = 0x8004 then some .RoomTargetTemp
  else if r = 0x8005 then some .RoomActualTemp
  else if r = 0x8006 then some .SwitchOnOptimizationTime
  else if r = 0x8007 then some .SwitchOffOptimizationTime
  else if r = 0x8008 then some .PumpPower
  else if r = 0x8009 then some .MixingValue
  else if r = 0x800c then some .HeatingCurvePlus10
  else if r = 0x800d then some .HeatingCurve0
  else if r = 0x800e then some .HeatingCurveMinus10
  else if r = 0x8424 then some .HotWaterOperatingStates_1
  else if r = 0x8425 then some .HotWaterOperatingStates_2
  else if r = 0x8426 then some .HotWaterTargetTemp
  else if r = 0x8427 then some .HotWaterActualTemp
  else if r = 0x8428 then some .HotWaterOptimizationTime
  else if r = 0x8429 then some .HotWaterPumpStates
  else if r = 0x882a then some .BoilerForwardTargetTemp
  else if r = 0x882b then some .BoilerForwardActualTemp
  else if r = 0x882c then some .BurnerSwitchOnTemp
  else if r = 0x882d then some .BurnerSwitchOffTemp
  else if r = 0x882e then some .BoilerIntegral_1
  else if r = 0x882f then some .BoilerIntegral_2
  else if r = 0x8830 then some .BoilerErrorStates
  else if r = 0x8831 then some .BoilerOperatingStates
  else if r = 0x8832 then some .BurnerStates
  else if r = 0x8833 then some .ExhaustTemp
  else if r = 0x8836 then some .BurnerOperatingDuration_2
  else if r = 0x8837 then some .BurnerOperatingDuration_1
  else if r = 0x8838 then some .BurnerOperatingDuration_0
  else if r = 0x893c then some .OutsideTemp
  else if r = 0x893d then some .OutsideDampedTemp
  else if r = 0x893e then some .ControllerVersionMain
  else if r = 0x893f then some .ControllerVersionSub
  else if r = 0x8940 then some .Modul
  else if r = 0xaa42 then some .ERR_Alarmstatus
  else none

/-! ## Publishing (mqttPublish) -/

/-- Value of an mqttPublish call: a number rendered with String(x), a
plain label string, or a number followed by a unit suffix. -/
inductive PubVal where
  | num (q : Rat)
  | str (s : String)
  | numSuffix (q : Rat) (u : String)
  deriving DecidableEq, Repr

/-- A publish call: topic (as passed to addTopic) and value. -/
abbrev Pub := String × PubVal

/-! ## Message arrays for config messages (km271.cpp lines 44-56) -/

def cfgOperatingMode : List String := ["night", "day", "auto"]
def cfgDisplay : List String := ["auto", "boiler", "DHW", "outdoor"]
def cfgLanguage : List String := ["DE", "FR", "IT", "NL", "EN", "PL"]
def cfgReductionMode : List String := ["off", "fixed", "room", "outdoors"]
def cfgSummerModeThreshold : List String :=
  ["summer", "10 °C", "11 °C", "12 °C", "13 °C", "14 °C", "15 °C", "16 °C", "17 °C",
   "18 °C", "19 °C", "20 °C", "21 °C", "22 °C", "23 °C", "24 °C", "25 °C", "26 °C",
   "27 °C", "28 °C", "29 °C", "30 °C", "winter"]
def cfgSwitchOnTemperature : List String :=
  ["off", "1", "2", "3", "4", "5", "6", "7", "8", "9", "10"]
def cfgHeatingSystem : List String := ["off", "radiator", "-", "underfloor"]
def cfgOnOff : List String := ["off", "on"]
def cfgBuildingType : List String := ["light", "medium", "heavy"]
def cfgCirculationInterval : List String := ["off", "1", "2", "3", "4", "5", "6", "on"]
def cfgBurnerType : List String := ["1-stage", "2-stage", "modulated"]
def cfgExhaustGasThreshold : List String :=
  ["off", "50", "55", "60", "65", "70", "75", "80", "85", "90", "95", "100", "105",
   "110", "115", "120", "125", "130", "135", "140", "145", "150", "155", "160", "165",
   "170", "175", "180", "185", "190", "195", "200", "205", "210", "215", "220", "225",
   "230", "235", "240", "245", "250"]
def cfgHk1Program : List String :=
  ["custom", "family", "early", "late", "AM", "PM", "noon", "single", "senior"]

/-- Indexing a label array with a possibly offset index (the C code
indexes with int arithmetic; an index outside the array is undefined
behaviour in C and yields the empty string in the model). -/
def cfgGet (l : List String) (i : Int) : String :=
  if 0 ≤ i then l.getD i.toNat "" else ""

/-! ## Payload decoder: parseInfo (km271.cpp lines 119-476)

The switch over kmregister, one definition per case of the switch;
parseInfo below dispatches on the register identifier.  Each case
returns the updated scratch copy of the status snapshot together with
the mqttPublish calls it makes, in order.  The DEBUG_ON hex dump in the
default case is compiled out.  Note the 0x8425 case: the DHW_BW2_load
topic is published from HeatingCircuitOperatingStates_1, exactly as in
the source. -/
def parseReg8000 (st : Status) (d : List Nat) : Status × List Pub :=
  (Function.update st StatusField.HeatingCircuitOperatingStates_1 (dat d 2),
   [("/status/HK1_BW1_off_time_optimization", .num (bitRead (dat d 2) 0)),
    ("/status/HK1_BW1_on_time_optimization", .num (bitRead (dat d 2) 1)),
    ("/status/HK1_BW1_auto", .num (bitRead (dat d 2) 2)),
    ("/status/HK1_BW1_DHW_priority", .num (bitRead (dat d 2) 3)),
    ("/status/HK1_BW1__drying", .num (bitRead (dat d 2) 4)),
    ("/status/HK1_BW1_holiday", .num (bitRead (dat d 2) 5)),
    ("/status/HK1_BW1_frost_protection", .num (bitRead (dat d 2) 6)),
    ("/status/HK1_BW1_manual", .num (bitRead (dat d 2) 7))])

def parseReg8001 (st : Status) (d : List Nat) : Status × List Pub :=
  (Function.update st StatusField.HeatingCircuitOperatingStates_2 (dat d 2),
   [("/status/HK1_BW2_summer", .num (bitRead (dat d 2) 0)),
    ("/status/HK1_BW2_day", .num (bitRead (dat d 2) 1)),
    ("/status/HK1_BW2_no_operation_with_FB", .num (bitRead (dat d 2) 2)),
    ("/status/HK1_BW2_FB_faulty", .num (bitRead (dat d 2) 3)),
    ("/status/HK1_BW2_failure_flow_sensor", .num (bitRead (dat d 2) 4)),
    ("/status/HK1_BW2_flow_at_maximum", .num (bitRead (dat d 2) 5)),
    ("/status/HK1_BW2_external_signal_input", .num (bitRead (dat d 2) 6))])

def parseReg8002 (st : Status) (d : List Nat) : Status × List Pub :=
  (Function.update st StatusField.HeatingForwardTargetTemp ((dat d 2 : Rat)),
   [("/status/HK1_flow_setpoint", .num (dat d 2 : Rat))])

def parseReg8003 (st : Status) (d : List Nat) : Status × List Pub :=
  (Function.update st StatusField.HeatingForwardActualTemp ((dat d 2 : Rat)),
   [("/status/HK1_flow_temperature", .num (dat d 2 : Rat))])

def parseReg8004 (st : Status) (d : List Nat) : Status × List Pub :=
  (Function.update st StatusField.RoomTargetTemp (decode05cTemp (dat d 2)),
   [("/status/HK1_room_setpoint", .num (decode05cTemp (dat d 2)))])

def parseReg8005 (st : Status) (d : List Nat) : Status × List Pub :=
  (Function.update st StatusField.RoomActualTemp (decode05cTemp (dat d 2)),
   [("/status/HK1_room_temperature", .num (decode05cTemp (dat d 2)))])

def parseReg8006 (st : Status) (d : List Nat) : Status × List Pub :=
  (Function.update st StatusField.SwitchOnOptimizationTime (dat d 2),
   [("/status/HK1_on_time_optimization_duration", .num (dat d 2 : Rat))])

def parseReg8007 (st : Status) (d : List Nat) : Status × List Pub :=
  (Function.update st StatusField.SwitchOffOptimizationTime (dat d 2),
   [("/status/HK1_off_time_optimization_duration", .num (dat d 2 : Rat))])

def parseReg8008 (st : Status) (d : List Nat) : Status × List Pub :=
  (Function.update st StatusField.PumpPower (dat d 2),
   [("/status/HK1_pump", .num (dat d 2 : Rat))])

def parseReg8009 (st : Status) (d : List Nat) : Status × List Pub :=
  (Function.update st StatusField.MixingValue (dat d 2),
   [("/status/HK1_mixer", .num (dat d 2 : Rat))])

def parseReg800C (st : Status) (d : List Nat) : Status × List Pub :=
  (Function.update st StatusField.HeatingCurvePlus10 ((dat d 2 : Rat)),
   [("/status/HK1_heat_curve_10C", .num (dat d 2 : Rat))])

def parseReg800D (st : Status) (d : List Nat) : Status × List Pub :=
  (Function.update st StatusField.HeatingCurve0 ((dat d 2 : Rat)),
   [("/status/HK1_heat_curve_0C", .num (dat d 2 : Rat))])

def parseReg800E (st : Status) (d : List Nat) : Status × List Pub :=
  (Function.update st StatusField.HeatingCurveMinus10 ((dat d 2 : Rat)),
   [("/status/HK1_heat_curve_-10C", .num (dat d 2 : Rat))])

def parseReg8424 (st : Status) (d : List Nat) : Status × List Pub :=
  (Function.update st StatusField.HotWaterOperatingStates_1 (dat d 2),
   [("/status/DHW_BW1_auto", .num (bitRead (dat d 2) 0)),
    ("/status/DHW_BW1_disinfect", .num (bitRead (dat d 2) 1)),
    ("/status/DHW_BW1_reload", .num (bitRead (dat d 2) 2)),
    ("/status/DHW_BW1_holiday", .num (bitRead (dat d 2) 3)),
    ("/status/DHW_BW1_failure_disinfect", .num (bitRead (dat d 2) 4)),
    ("/status/DHW_BW1_failure_sensor", .num (bitRead (dat d 2) 5)),
    ("/status/DHW_BW1_failure_DHW_stays_cold", .num (bitRead (dat d 2) 6)),
    ("/status/DHW_BW1_failure_anode", .num (bitRead (dat d 2) 7))])

def parseReg8425 (st : Status) (d : List Nat) : Status × List Pub :=
  (Function.update st StatusField.HotWaterOperatingStates_2 (dat d 2),
   [("/status/DHW_BW2_load", .num (bitRead (st StatusField.HeatingCircuitOperatingStates_1) 0)),
    ("/status/DHW_BW2_manual", .num (bitRead (dat d 2) 1)),
    ("/status/DHW_BW2_reload", .num (bitRead (dat d 2) 2)),
    ("/status/DHW_BW2_off_time_optimization", .num (bitRead (dat d 2) 3)),
    ("/status/DHW_BW2_on_time_optimization", .num (bitRead (dat d 2) 4)),
    ("/status/DHW_BW2_day", .num (bitRead (dat d 2) 5)),
    ("/status/DHW_BW2_hot", .num (bitRead (dat d 2) 6)),
    ("/status/DHW_BW2_priority", .num (bitRead (dat d 2) 7))])

def parseReg8426 (st : Status) (d : List Nat) : Status × List Pub :=
  (Function.update st StatusField.HotWaterTargetTemp ((dat d 2 : Rat)),
   [("/status/DHW_setpoint", .num (dat d 2 : Rat))])

def parseReg8427 (st : Status) (d : List Nat) : Status × List Pub :=
  (Function.update st StatusField.HotWaterActualTemp ((dat d 2 : Rat)),
   [("/status/DHW_temperature", .num (dat d 2 : Rat))])

def parseReg8428 (st : Status) (d : List Nat) : Status × List Pub :=
  (Function.update st StatusField.HotWaterOptimizationTime (dat d 2),
   [("/status/DHW_optimization_time", .num (dat d 2 : Rat))])

def parseReg8429 (st : Status) (d : List Nat) : Status × List Pub :=
  (Function.update st StatusField.HotWaterPumpStates (dat d 2),
   [("/status/DHW_pump_type_charge", .num (bitRead (dat d 2) 0)),
    ("/status/DHW_pump_type_circulation", .num (bitRead (dat d 2) 1)),
    ("/status/DHW_pump_type_groundwater_solar", .num (bitRead (dat d 2) 2))])

def parseReg882A (st : Status) (d : List Nat) : Status × List Pub :=
  (Function.update st StatusField.BoilerForwardTargetTemp ((dat d 2 : Rat)),
   [("/status/boiler_setpoint", .num (dat d 2 : Rat))])

def parseReg882B (st : Status) (d : List Nat) : Status × List Pub :=
  (Function.update st StatusField.BoilerForwardActualTemp ((dat d 2 : Rat)),
   [("/status/boiler_temperature", .num (dat d 2 : Rat))])

def parseReg882C (st : Status) (d : List Nat) : Status × List Pub :=
  (Function.update st StatusField.BurnerSwitchOnTemp ((dat d 2 : Rat)),
   [("/status/burner_switch_on_temperature", .num (dat d 2 : Rat))])

def parseReg882D (st : Status) (d : List Nat) : Status × List Pub :=
  (Function.update st StatusField.BurnerSwitchOffTemp ((dat d 2 : Rat)),
   [("/status/burner_switch_off_temperature", .num (dat d 2 : Rat))])

def parseReg882E (st : Status) (d : List Nat) : Status × List Pub :=
  (Function.update st StatusField.BoilerIntegral_1 (dat d 2), [])

def parseReg882F (st : Status) (d : List Nat) : Status × List Pub :=
  (Function.update st StatusField.BoilerIntegral_2 (dat d 2), [])

def parseReg8830 (st : Status) (d : List Nat) : Status × List Pub :=
  (Function.update st StatusField.BoilerErrorStates (dat d 2),
   [("/status/boiler_failure_burner", .num (bitRead (dat d 2) 0)),
    ("/status/boiler_failure_boiler_sensor", .num (bitRead (dat d 2) 1)),
    ("/status/boiler_failure_aux_sensor", .num (bitRead (dat d 2) 2)),
    ("/status/boiler_failure_boiler_stays_cold", .num (bitRead (dat d 2) 3)),
    ("/status/boiler_failure_exhaust_gas_sensor", .num (bitRead (dat d 2) 4)),
    ("/status/boiler_failure_exhaust_gas_over_limit", .num (bitRead (dat d 2) 5)),
    ("/status/boiler_failure_safety_chain", .num (bitRead (dat d 2) 6)),
    ("/status/boiler_failure_external", .num (bitRead (dat d 2) 7))])

def parseReg8831 (st : Status) (d : List Nat) : Status × List Pub :=
  (Function.update st StatusField.BoilerOperatingStates (dat d 2),
   [("/status/boiler_state_exhaust_gas_test", .num (bitRead (dat d 2) 0)),
    ("/status/boiler_state_stage1", .num (bitRead (dat d 2) 1)),
    ("/status/boiler_state_boiler_protection", .num (bitRead (dat d 2) 2)),
    ("/status/boiler_state_active", .num (bitRead (dat d 2) 3)),
    ("/status/boiler_state_performance_free", .num (bitRead (dat d 2) 4)),
    ("/status/boiler_state_performance_high", .num (bitRead (dat d 2) 5)),
    ("/status/boiler_state_stage2", .num (bitRead (dat d 2) 6))])

def parseReg8832 (st : Status) (d : List Nat) : Status × List Pub :=
  (Function.update st StatusField.BurnerStates (dat d 2),
   [("/status/burner_control", .num (dat d 2 : Rat))])

def parseReg8833 (st : Status) (d : List Nat) : Status × List Pub :=
  (Function.update st StatusField.ExhaustTemp ((dat d 2 : Rat)),
   [("/status/exhaust_gas_temperature", .num (dat d 2 : Rat))])

def parseReg8836 (st : Status) (d : List Nat) : Status × List Pub :=
  (Function.update st StatusField.BurnerOperatingDuration_2 (dat d 2),
   [("/status/burner_lifetime_minutes65536", .num (dat d 2 : Rat))])

def parseReg8837 (st : Status) (d : List Nat) : Status × List Pub :=
  (Function.update st StatusField.BurnerOperatingDuration_1 (dat d 2),
   [("/status/burner_lifetime_minutes256", .num (dat d 2 : Rat))])

def parseReg8838 (st : Status) (d : List Nat) : Status × List Pub :=
  (Function.update st StatusField.BurnerOperatingDuration_0 (dat d 2),
   [("/status/burner_lifetime_minutes", .num (dat d 2 : Rat))])

def parseReg893C (st : Status) (d : List Nat) : Status × List Pub :=
  (Function.update st StatusField.OutsideTemp (decodeNegTemp (dat d 2)),
   [("/status/outside_temperature", .num (decodeNegTemp (dat d 2)))])

def parseReg893D (st : Status) (d : List Nat) : Status × List Pub :=
  (Function.update st StatusField.OutsideDampedTemp (decodeNegTemp (dat d 2)),
   [("/status/outside_temperature_damped", .num (decodeNegTemp (dat d 2)))])

def parseReg893E (st : Status) (d : List Nat) : Status × List Pub :=
  (Function.update st StatusField.ControllerVersionMain (dat d 2),
   [("/status/version_VK", .num (dat d 2 : Rat))])

def parseReg893F (st : Status) (d : List Nat) : Status × List Pub :=
  (Function.update st StatusField.ControllerVersionSub (dat d 2),
   [("/status/version_NK", .num (dat d 2 : Rat))])

def parseReg8940 (st : Status) (d : List Nat) : Status × List Pub :=
  (Function.update st StatusField.Modul (dat d 2),
   [("/status/module_id", .num (dat d 2 : Rat))])

def parseRegAA42 (st : Status) (d : List Nat) : Status × List Pub :=
  (Function.update st StatusField.ERR_Alarmstatus (dat d 2),
   [("/status/ERR_alarm_exhaust", .num (bitRead (dat d 2) 0)),
    ("/status/ERR_alarm_02", .num (bitRead (dat d 2) 1)),
    ("/status/ERR_alarm_boiler_flow_sensor", .num (bitRead (dat d 2) 2)),
    ("/status/ERR_alarm_08", .num (bitRead (dat d 2) 3)),
    ("/status/ERR_alarm_burner", .num (bitRead (dat d 2) 4)),
    ("/status/ERR_alarm_20", .num (bitRead (dat d 2) 5)),
    ("/status/ERR_alarm_HK2-flow_sensor", .num (bitRead (dat d 2) 6)),
    ("/status/ERR_alarm_80", .num (bitRead (dat d 2) 7))])

def parseReg0000 (st : Status) (d : List Nat) : Status × List Pub :=
  (st,
   [("/config/summer_mode_threshold", .str (cfgGet cfgSummerModeThreshold ((dat d 3 : Int) - 9))),
    ("/config/HK1_night_temperature", .numSuffix (decode05cTemp (dat d 4)) " °C"),
    ("/config/HK1_day_temperature", .numSuffix (decode05cTemp (dat d 5)) " °C"),
    ("/config/HK1_operating_mode", .str (cfgGet cfgOperatingMode (dat d 6 : Int))),
    ("/config/HK1_holiday_temperature", .numSuffix (decode05cTemp (dat d 7)) " °C")])

def parseReg000E (st : Status) (d : List Nat) : Status × List Pub :=
  (st,
   [("/config/HK1_max_temperature", .numSuffix (dat d 4 : Rat) " °C"),
    ("/config/HK1_explanation", .num (dat d 6 : Rat))])

def parseReg0015 (st : Status) (d : List Nat) : Status × List Pub :=
  (st,
   [("/config/HK1_switch_on_temperature",
      .str (cfgGet cfgSwitchOnTemperature (dat d 2 : Int) ++ " °C")),
    ("/config/HK1_switch_off_threshold", .numSuffix (decodeNegTemp (dat d 4)) " °C")])

def parseReg001C (st : Status) (d : List Nat) : Status × List Pub :=
  (st,
   [("/config/HK1_reduction_mode", .str (cfgGet cfgReductionMode (dat d 3 : Int))),
    ("/config/HK1_heating_system", .str (cfgGet cfgHeatingSystem (dat d 4 : Int)))])

def parseReg0031 (st : Status) (d : List Nat) : Status × List Pub :=
  -- HK1_temperature_offset applies decode05cTemp to the decodeNegTemp result;
  -- the intermediate float-to-uint8_t conversion is modelled as exact halving.
  (st,
   [("/config/HK1_temperature_offset", .numSuffix (decodeNegTemp (dat d 5) / 2) " °C"),
    ("/config/HK1_remote_control", .str (cfgGet cfgOnOff (dat d 6 : Int))),
    ("/config/frost_protection_cutoff", .numSuffix (decodeNegTemp (dat d 7)) " °C")])

def parseReg004D (st : Status) (d : List Nat) : Status × List Pub :=
  (st, [("/config/DHW_priority", .str (cfgGet cfgOnOff (dat d 3 : Int)))])

def parseReg0070 (st : Status) (d : List Nat) : Status × List Pub :=
  (st, [("/config/building_type", .str (cfgGet cfgBuildingType (dat d 4 : Int)))])

def parseReg007E (st : Status) (d : List Nat) : Status × List Pub :=
  (st, [("/config/DHW_temperature", .numSuffix (dat d 5 : Rat) " °C")])

def parseReg0085 (st : Status) (d : List Nat) : Status × List Pub :=
  (st,
   [("/config/DHW_operating_mode", .str (cfgGet cfgOperatingMode (dat d 2 : Int))),
    ("/config/DHW_processing", .str (cfgGet cfgOnOff (dat d 5 : Int))),
    ("/config/DHW_circulation", .str (cfgGet cfgCirculationInterval (dat d 7 : Int)))])

def parseReg0093 (st : Status) (d : List Nat) : Status × List Pub :=
  (st,
   [("/config/language", .str (cfgGet cfgLanguage (dat d 2 : Int))),
    ("/config/display", .str (cfgGet cfgDisplay (dat d 3 : Int)))])

def parseReg009A (st : Status) (d : List Nat) : Status × List Pub :=
  (st,
   [("/config/burner_type", .str (cfgGet cfgBurnerType ((dat d 3 : Int) - 1))),
    ("/config/max_boiler_temperature", .numSuffix (dat d 5 : Rat) " °C")])

def parseReg00A1 (st : Status) (d : List Nat) : Status × List Pub :=
  (st,
   [("/config/pump_logic_temperature", .numSuffix (dat d 2 : Rat) " °C"),
    ("/config/exhaust_gas_temperature_threshold",
      .str (cfgGet cfgExhaustGasThreshold ((dat d 7 : Int) - 9)))])

def parseReg00A8 (st : Status) (d : List Nat) : Status × List Pub :=
  (st,
   [("/config/burner_min_modulation", .num (dat d 2 : Rat)),
    ("/config/burner_modulation_runtime", .num (dat d 3 : Rat))])

def parseReg0100 (st : Status) (d : List Nat) : Status × List Pub :=
  (st, [("/config/HK1_program", .str (cfgGet cfgHk1Program (dat d 2 : Int)))])

def parseInfo (st : Status) (d : List Nat) : Status × List Pub :=
  if regOf d = 0x8000 then parseReg8000 st d
  else if regOf d = 0x8001 then parseReg8001 st d
  else if regOf d = 0x8002 then parseReg8002 st d
  else if regOf d = 0x8003 then parseReg8003 st d
  else if regOf d = 0x8004 then parseReg8004 st d
  else if regOf d = 0x8005 then parseReg8005 st d
  else if regOf d = 0x8006 then parseReg8006 st d
  else if regOf d = 0x8007 then parseReg8007 st d
  else if regOf d = 0x8008 then parseReg8008 st d
  else if regOf d = 0x8009 then parseReg8009 st d
  else if regOf d = 0x800c then parseReg800C st d
  else if regOf d = 0x800d then parseReg800D st d
  else if regOf d = 0x800e then parseReg800E st d
  else if regOf d = 0x8424 then parseReg8424 st d
  else if regOf d = 0x8425 then parseReg8425 st d
  else if regOf d = 0x8426 then parseReg8426 st d
  else if regOf d = 0x8427 then parseReg8427 st d
  else if regOf d = 0x8428 then parseReg8428 st d
  else if regOf d = 0x8429 then parseReg8429 st d
  else if regOf d = 0x882a then parseReg882A st d
  else if regOf d = 0x882b then parseReg882B st d
  else if regOf d = 0x882c then parseReg882C st d
  else if regOf d = 0x882d then parseReg882D st d
  else if regOf d = 0x882e then parseReg882E st d
  else if regOf d = 0x882f then parseReg882F st d
  else if regOf d = 0x8830 then parseReg8830 st d
  else if regOf d = 0x8831 then parseReg8831 st d
  else if regOf d = 0x8832 then parseReg8832 st d
  else if regOf d = 0x8833 then parseReg8833 st d
  else if regOf d = 0x8836 then parseReg8836 st d
  else if regOf d = 0x8837 then parseReg8837 st d
  else if regOf d = 0x8838 then parseReg8838 st d
  else if regOf d = 0x893c then parseReg893C st d
  else if regOf d = 0x893d then parseReg893D st d
  else if regOf d = 0x893e then parseReg893E st d
  else if regOf d = 0x893f then parseReg893F st d
  else if regOf d = 0x8940 then parseReg8940 st d
  else if regOf d = 0xaa42 then parseRegAA42 st d
  else if regOf d = 0x0000 then parseReg0000 st d
  else if regOf d = 0x000e then parseReg000E st d
  else if regOf d = 0x0015 then parseReg0015 st d
  else if regOf d = 0x001c then parseReg001C st d
  else if regOf d = 0x0031 then parseReg0031 st d
  else if regOf d = 0x004d then parseReg004D st d
  else if regOf d = 0x0070 then parseReg0070 st d
  else if regOf d = 0x007e then parseReg007E st d
  else if regOf d = 0x0085 then parseReg0085 st d
  else if regOf d = 0x0093 then parseReg0093 st d
  else if regOf d = 0x009a then parseReg009A st d
  else if regOf d = 0x00a1 then parseReg00A1 st d
  else if regOf d = 0x00a8 then parseReg00A8 st d
  else if regOf d = 0x0100 then parseReg0100 st d
  else if regOf d = 0x0400 then (st, [])
  else (st, [])

/-- The tail of parseInfo: memcmp the scratch copy against kmState and
memcpy it back only when it differs.  wrote records whether the copy
back happened. -/
structure ParseOut where
  state : Status
  wrote : Bool
  pubs : List Pub

def parseInfoCommit (st : Status) (d : List Nat) : ParseOut :=
  ⟨(parseInfo st d).1, decide ((parseInfo st d).1 ≠ st), (parseInfo st d).2⟩

/-! ## Session manager: handleRxBlock (km271.cpp lines 628-666) -/

/-- e_rxBlockState from km271.h. -/
inductive TskState where
  | KM_TSK_START
  | KM_TSK_LG_CMD
  | KM_TSK_LOGGING
  deriving DecidableEq, Repr

/-- The globals handleRxBlock works on: KmRxBlockState, send_request,
send_buf and the kmState snapshot written through parseInfo. -/
structure SessionState where
  blockState : TskState
  sendRequest : Bool
  sendBuf : List Nat
  km : Status

/-- handleRxBlock: the higher-level block handler.  Returns the updated
session state, the bytes written to the serial port, and the publish
calls made via parseInfo. -/
def handleRxBlock (s : SessionState) (d : List Nat) : SessionState × List Nat × List Pub :=
  match s.blockState with
  | .KM_TSK_START =>
      if dat d 0 = KM_STX then (s, sendTxBlock KmCSTX, [])
      else if dat d 0 = KM_DLE then
        ({s with blockState := .KM_TSK_LG_CMD}, sendTxBlock KmCLogMode, [])
      else (s, [], [])
  | .KM_TSK_LG_CMD =>
      if dat d 0 ≠ KM_DLE then ({s with blockState := .KM_TSK_START}, [], [])
      else ({s with blockState := .KM_TSK_LOGGING}, [], [])
  | .KM_TSK_LOGGING =>
      if dat d 0 = KM_STX then
        if s.sendRequest then (s, sendTxBlock KmCSTX, [])
        else (s, sendTxBlock KmCDLE, [])
      else if dat d 0 = KM_DLE then
        ({s with sendRequest := false, blockState := .KM_TSK_START},
         sendTxBlock s.sendBuf, [])
      else
        ({s with km := (parseInfo s.km d).1}, sendTxBlock KmCDLE, (parseInfo s.km d).2)

/-! ## Command builder: km271sendCmd (km271.cpp lines 717-860) -/

/-- e_km271_sendCmd from km271.h. -/
inductive SendCmd where
  | KM271_SENDCMD_HK1_BA
  | KM271_SENDCMD_HK1_AUSLEGUNG
  | KM271_SENDCMD_HK1_PROGRAMM
  | KM271_SENDCMD_WW_BA
  | KM271_SENDCMD_SOMMER_AB
  | KM271_SENDCMD_FROST_AB
  | KM271_SENDCMD_AUSSENHALT
  | KM271_SENDCMD_WW_SOLL
  deriving DecidableEq, Repr

/-- The send slot: send_request flag and the 8-byte send_buf. -/
structure CmdSlot where
  sendRequest : Bool
  sendBuf : List Nat
  deriving DecidableEq, Repr

/-- km271sendCmd.  cmdPara is a uint8_t, modelled as a Nat below 256;
the C range checks compare after integer promotion, so a check such as
cmdPara greater or equal -20 is written with the promoted Int value and
is vacuously true for a uint8_t.  Returns the updated slot and the
message published. -/
def km271sendCmd (sendCmd : SendCmd) (cmdPara : Nat) (s : CmdSlot) : CmdSlot × List Pub :=
  match sendCmd with
  | .KM271_SENDCMD_HK1_BA =>
      if (0 : Int) ≤ (cmdPara : Int) ∧ (cmdPara : Int) ≤ 2 then
        (⟨true, [0x07, 0x00, 0x65, 0x65, 0x65, 0x65, cmdPara, 0x65]⟩,
         [("/message", .str "setvalue: hk1_betriebsart - received")])
      else (s, [("/message", .str "setvalue: hk1_betriebsart - invald value")])
  | .KM271_SENDCMD_HK1_AUSLEGUNG =>
      if (30 : Int) ≤ (cmdPara : Int) ∧ (cmdPara : Int) ≤ 90 then
        (⟨true, [0x07, 0x0E, 0x65, 0x65, 0x65, 0x65, cmdPara, 0x65]⟩,
         [("/message", .str "setvalue: hk1_auslegung - received")])
      else (s, [("/message", .str "setvalue: hk1_auslegung - invald value")])
  | .KM271_SENDCMD_HK1_PROGRAMM =>
      if (0 : Int) ≤ (cmdPara : Int) ∧ (cmdPara : Int) ≤ 8 then
        (⟨true, [0x11, 0x00, cmdPara, 0x65, 0x65, 0x65, 0x65, 0x65]⟩,
         [("/message", .str "setvalue: hk1_programm - received")])
      else (s, [("/message", .str "setvalue: hk1_programm - invald value")])
  | .KM271_SENDCMD_WW_BA =>
      if (0 : Int) ≤ (cmdPara : Int) ∧ (cmdPara : Int) ≤ 2 then
        (⟨true, [0x0C, 0x0E, cmdPara, 0x65, 0x65, 0x65, 0x65, 0x65]⟩,
         [("/message", .str "setvalue: dhw_mode - received")])
      else (s, [("/message", .str "setvalue: dhw_mode - invald value")])
  | .KM271_SENDCMD_SOMMER_AB =>
      if (9 : Int) ≤ (cmdPara : Int) ∧ (cmdPara : Int) ≤ 31 then
        (⟨true, [0x07, 0x00, 0x65, cmdPara, 0x65, 0x65, 0x65, 0x65]⟩,
         [("/message", .str "setvalue: summer_threshold - received")])
      else (s, [("/message", .str "setvalue: summer_threshold - invald value")])
  | .KM271_SENDCMD_FROST_AB =>
      if (-20 : Int) ≤ (cmdPara : Int) ∧ (cmdPara : Int) ≤ 10 then
        (⟨true, [0x07, 0x31, 0x65, 0x65, 0x65, 0x65, 0x65, cmdPara]⟩,
         [("/message", .str "setvalue: frost_ab - received")])
      else (s, [("/message", .str "setvalue: frost_ab - invald value")])
  | .KM271_SENDCMD_AUSSENHALT =>
      if (-20 : Int) ≤ (cmdPara : Int) ∧ (cmdPara : Int) ≤ 10 then
        (⟨true, [0x07, 0x15, 0x65, 0x65, cmdPara, 0x65, 0x65, 0x65]⟩,
         [("/message", .str "setvalue: aussenhalt_ab - received")])
      else (s, [("/message", .str "setvalue: aussenhalt_ab - invald value")])
  | .KM271_SENDCMD_WW_SOLL =>
      if (30 : Int) ≤ (cmdPara : Int) ∧ (cmdPara : Int) ≤ 60 then
        (⟨true, [0x0C, 0x07, 0x65, 0x65, 0x65, cmdPara, 0x65, 0x65]⟩,
         [("/message", .str "setvalue: dhw_setpoint - received")])
      else (s, [("/message", .str "setvalue: dhw_setpoint - invald value")])

/-- The per-command parameter range check of km271sendCmd, with the same
integer-promotion semantics as the source. -/
def cmdInRange (sendCmd : SendCmd) (cmdPara : Nat) : Bool :=
  match sendCmd with
  | .KM271_SENDCMD_HK1_BA => decide ((0 : Int) ≤ (cmdPara : Int) ∧ (cmdPara : Int) ≤ 2)
  | .KM271_SENDCMD_HK1_AUSLEGUNG => decide ((30 : Int) ≤ (cmdPara : Int) ∧ (cmdPara : Int) ≤ 90)
  | .KM271_SENDCMD_HK1_PROGRAMM => decide ((0 : Int) ≤ (cmdPara : Int) ∧ (cmdPara : Int) ≤ 8)
  | .KM271_SENDCMD_WW_BA => decide ((0 : Int) ≤ (cmdPara : Int) ∧ (cmdPara : Int) ≤ 2)
  | .KM271_SENDCMD_SOMMER_AB => decide ((9 : Int) ≤ (cmdPara : Int) ∧ (cmdPara : Int) ≤ 31)
  | .KM271_SENDCMD_FROST_AB => decide ((-20 : Int) ≤ (cmdPara : Int) ∧ (cmdPara : Int) ≤ 10)
  | .KM271_SENDCMD_AUSSENHALT => decide ((-20 : Int) ≤ (cmdPara : Int) ∧ (cmdPara : Int) ≤ 10)
  | .KM271_SENDCMD_WW_SOLL => decide ((30 : Int) ≤ (cmdPara : Int) ∧ (cmdPara : Int) ≤ 60)

/-- The confirmation message km271sendCmd publishes for an in-range
parameter. -/
def acceptMsg : SendCmd → String
  | .KM271_SENDCMD_HK1_BA => "setvalue: hk1_betriebsart - received"
  | .KM271_SENDCMD_HK1_AUSLEGUNG => "setvalue: hk1_auslegung - received"
  | .KM271_SENDCMD_HK1_PROGRAMM => "setvalue: hk1_programm - received"
  | .KM271_SENDCMD_WW_BA => "setvalue: dhw_mode - received"
  | .KM271_SENDCMD_SOMMER_AB => "setvalue: summer_threshold - received"
  | .KM271_SENDCMD_FROST_AB => "setvalue: frost_ab - received"
  | .KM271_SENDCMD_AUSSENHALT => "setvalue: aussenhalt_ab - received"
  | .KM271_SENDCMD_WW_SOLL => "setvalue: dhw_setpoint - received"

/-- The rejection message km271sendCmd publishes for an out-of-range
parameter. -/
def rejectMsg : SendCmd → String
  | .KM271_SENDCMD_HK1_BA => "setvalue: hk1_betriebsart - invald value"
  | .KM271_SENDCMD_HK1_AUSLEGUNG => "setvalue: hk1_auslegung - invald value"
  | .KM271_SENDCMD_HK1_PROGRAMM => "setvalue: hk1_programm - invald value"
  | .KM271_SENDCMD_WW_BA => "setvalue: dhw_mode - invald value"
  | .KM271_SENDCMD_SOMMER_AB => "setvalue: summer_threshold - invald value"
  | .KM271_SENDCMD_FROST_AB => "setvalue: frost_ab - invald value"
  | .KM271_SENDCMD_AUSSENHALT => "setvalue: aussenhalt_ab - invald value"
  | .KM271_SENDCMD_WW_SOLL => "setvalue: dhw_setpoint - invald value"

/-! ## km271GetStatus and km271ProtInit (km271.cpp lines 515-538) -/

/-- km271GetStatus copies kmState into the destination only when the
access mutex exists; with a null mutex the destination keeps its old
contents.  The result is the contents of the destination structure
after the call. -/
def km271GetStatus (accessMutex : Bool) (kmState pDestStatus : Status) : Status :=
  if accessMutex then kmState else pDestStatus

/-- km271ProtInit creates the access mutex. -/
def km271ProtInit : Bool := true

/-! ## Concrete values used in witnesses -/

/-- An all-zero status snapshot. -/
def stZero : Status := fun f =>
  match f with
  | .HeatingCircuitOperatingStates_1 => (0 : Nat)
  | .HeatingCircuitOperatingStates_2 => (0 : Nat)
  | .HeatingForwardTargetTemp => (0 : Rat)
  | .HeatingForwardActualTemp => (0 : Rat)
  | .RoomTargetTemp => (0 : Rat)
  | .RoomActualTemp => (0 : Rat)
  | .SwitchOnOptimizationTime => (0 : Nat)
  | .SwitchOffOptimizationTime => (0 : Nat)
  | .PumpPower => (0 : Nat)
  | .MixingValue => (0 : Nat)
  | .HeatingCurvePlus10 => (0 : Rat)
  | .HeatingCurve0 => (0 : Rat)
  | .HeatingCurveMinus10 => (0 : Rat)
  | .HotWaterOperatingStates_1 => (0 : Nat)
  | .HotWaterOperatingStates_2 => (0 : Nat)
  | .HotWaterTargetTemp => (0 : Rat)
  | .HotWaterActualTemp => (0 : Rat)
  | .HotWaterOptimizationTime => (0 : Nat)
  | .HotWaterPumpStates => (0 : Nat)
  | .BoilerForwardTargetTemp => (0 : Rat)
  | .BoilerForwardActualTemp => (0 : Rat)
  | .BurnerSwitchOnTemp => (0 : Rat)
  | .BurnerSwitchOffTemp => (0 : Rat)
  | .BoilerIntegral_1 => (0 : Nat)
  | .BoilerIntegral_2 => (0 : Nat)
  | .BoilerErrorStates => (0 : Nat)
  | .BoilerOperatingStates => (0 : Nat)
  | .BurnerStates => (0 : Nat)
  | .ExhaustTemp => (0 : Rat)
  | .BurnerOperatingDuration_2 => (0 : Nat)
  | .BurnerOperatingDuration_1 => (0 : Nat)
  | .BurnerOperatingDuration_0 => (0 : Nat)
  | .OutsideTemp => (0 : Rat)
  | .OutsideDampedTemp => (0 : Rat)
  | .ControllerVersionMain => (0 : Nat)
  | .ControllerVersionSub => (0 : Nat)
  | .Modul => (0 : Nat)
  | .ERR_Alarmstatus => (0 : Nat)

/-- An empty send slot. -/
def slot0 : CmdSlot := ⟨false, [0, 0, 0, 0, 0, 0, 0, 0]⟩

/-- A session in the start state. -/
def sess0 : SessionState := ⟨.KM_TSK_START, false, [0, 0, 0, 0, 0, 0, 0, 0], stZero⟩

/-! ## Helper lemmas about the receiver -/

theorem rxRun_cons (s : KmState) (b : Nat) (rest : List Nat) :
    rxRun s (b :: rest) =
      ⟨(rxRun (rxStep s b).state rest).state,
       (rxStep s b).events ++ (rxRun (rxStep s b).state rest).events,
       (rxStep s b).tx ++ (rxRun (rxStep s b).state rest).tx⟩ := rfl

theorem rxRun_nil (s : KmState) : rxRun s [] = ⟨s, [], []⟩ := rfl

/-- Running the receiver over an appended byte list composes. -/
theorem rxRun_append (s : KmState) (l1 l2 : List Nat) :
    rxRun s (l1 ++ l2) =
      ⟨(rxRun (rxRun s l1).state l2).state,
       (rxRun s l1).events ++ (rxRun (rxRun s l1).state l2).events,
       (rxRun s l1).tx ++ (rxRun (rxRun s l1).state l2).tx⟩ := by
  induction l1 generalizing s with
  | nil => simp [rxRun]
  | cons b t ih => simp [rxRun, ih, List.append_assoc]

/-- One receiver step keeps the buffer within 20 bytes and only reports
buffers within 20 bytes. -/
theorem rxStep_len (s : KmState) (b : Nat) (h : s.buf.length ≤ 20) :
    (rxStep s b).state.buf.length ≤ 20 ∧ ∀ e ∈ (rxStep s b).events, eventLen e ≤ 20 := by
  cases hs : s.rxStatus <;>
    simp only [rxStep, hs] <;>
    split_ifs <;>
    simp_all [eventLen, KM_RX_BUF_LEN] <;>
    omega

/-- The receiver buffer stays within 20 bytes over any run, and every
reported buffer is within 20 bytes. -/
theorem rxRun_len (bs : List Nat) : ∀ s : KmState, s.buf.length ≤ 20 →
    (rxRun s bs).state.buf.length ≤ 20 ∧ ∀ e ∈ (rxRun s bs).events, eventLen e ≤ 20 := by
  induction bs with
  | nil => intro s h; simpa [rxRun] using h
  | cons b t ih =>
      intro s h
      obtain ⟨h1, h2⟩ := rxStep_len s b h
      obtain ⟨h3, h4⟩ := ih (rxStep s b).state h1
      refine ⟨by simpa [rxRun] using h3, ?_⟩
      intro e he
      simp only [rxRun, List.mem_append] at he
      rcases he with he | he
      exacts [h2 e he, h4 e he]

/-- In every state except KM_RX_IDLE, a step XORs the byte into the
running BCC. -/
theorem rxStep_bcc (s : KmState) (b : Nat) (h : s.rxStatus ≠ RxState.KM_RX_IDLE) :
    (rxStep s b).state.bcc = Nat.xor s.bcc b := by
  cases hs : s.rxStatus <;> simp only [rxStep, hs] <;> split_ifs <;> simp_all

/-- As long as a run never sits in KM_RX_IDLE, the running BCC is the
XOR of the starting BCC with every byte consumed. -/
theorem rxRun_bcc (bs : List Nat) : ∀ s : KmState,
    (∀ i, i < bs.length → (rxRun s (bs.take i)).state.rxStatus ≠ RxState.KM_RX_IDLE) →
    (rxRun s bs).state.bcc = List.foldl Nat.xor s.bcc bs := by
  induction bs with
  | nil => intro s _; simp [rxRun]
  | cons b t ih =>
      intro s h
      have h0 : s.rxStatus ≠ RxState.KM_RX_IDLE := by
        have := h 0 (by simp)
        simpa [rxRun] using this
      have ht : ∀ i, i < t.length →
          (rxRun (rxStep s b).state (t.take i)).state.rxStatus ≠ RxState.KM_RX_IDLE := by
        intro i hi
        have := h (i + 1) (by simp; omega)
        simpa [rxRun, List.take_succ_cons] using this
      have := ih (rxStep s b).state ht
      simp only [rxRun] at this ⊢
      rw [this, rxStep_bcc s b h0]
      simp [List.foldl]

theorem rxStep_on_dle (c : Nat) (bf : List Nat) :
    rxStep ⟨RxState.KM_RX_ON, c, bf⟩ KM_DLE =
      ⟨⟨RxState.KM_RX_DLE, Nat.xor c KM_DLE, bf⟩, [], []⟩ := by
  simp [rxStep]

theorem rxStep_on_data (c : Nat) (bf : List Nat) (b : Nat) (hb : b ≠ KM_DLE)
    (hlen : ¬ KM_RX_BUF_LEN ≤ bf.length) :
    rxStep ⟨RxState.KM_RX_ON, c, bf⟩ b =
      ⟨⟨RxState.KM_RX_ON, Nat.xor c b, bf ++ [b]⟩, [], []⟩ := by
  simp [rxStep, hb, hlen]

theorem rxStep_dle_dle (c : Nat) (bf : List Nat)
    (hlen : ¬ KM_RX_BUF_LEN ≤ bf.length) :
    rxStep ⟨RxState.KM_RX_DLE, c, bf⟩ KM_DLE =
      ⟨⟨RxState.KM_RX_ON, Nat.xor c KM_DLE, bf ++ [KM_DLE]⟩, [], []⟩ := by
  simp [rxStep, hlen]

theorem rxStep_dle_etx (c : Nat) (bf : List Nat) :
    rxStep ⟨RxState.KM_RX_DLE, c, bf⟩ KM_ETX =
      ⟨⟨RxState.KM_RX_BCC, Nat.xor c KM_ETX, bf⟩, [], []⟩ := by
  simp [rxStep, KM_ETX, KM_DLE]

theorem rxStep_idle_data (c : Nat) (bf : List Nat) (b : Nat)
    (h1 : b ≠ KM_STX) (h2 : b ≠ KM_DLE) (h3 : b ≠ KM_NAK) :
    rxStep ⟨RxState.KM_RX_IDLE, c, bf⟩ b =
      ⟨⟨RxState.KM_RX_ON, b, [b]⟩, [], []⟩ := by
  simp [rxStep, h1, h2, h3]

theorem rxStep_bcc_match (c : Nat) (bf : List Nat) (b : Nat) (h : Nat.xor c b = 0) :
    rxStep ⟨RxState.KM_RX_BCC, c, bf⟩ b =
      ⟨⟨RxState.KM_RX_IDLE, 0, bf⟩, [RxEvent.block bf], []⟩ := by
  simp [rxStep, h]

/-- While a block body is being received, feeding the stuffed image of
the remaining payload keeps the machine in KM_RX_ON, appends the
payload bytes unstuffed, XORs every wire byte into the BCC, and makes
no report and no transmission. -/
theorem rxRun_stuff (rest : List Nat) : ∀ (c : Nat) (bf : List Nat),
    bf.length + rest.length ≤ 20 →
    rxRun ⟨RxState.KM_RX_ON, c, bf⟩ (stuffBytes rest) =
      ⟨⟨RxState.KM_RX_ON, List.foldl Nat.xor c (stuffBytes rest), bf ++ rest⟩, [], []⟩ := by
  induction rest with
  | nil => intro c bf _; simp [stuffBytes, rxRun]
  | cons b t ih =>
      intro c bf h
      have hlen : ¬ (KM_RX_BUF_LEN ≤ bf.length) := by
        simp only [KM_RX_BUF_LEN]
        simp at h
        omega
      by_cases hb : b = KM_DLE
      · subst hb
        have h2 : (bf ++ [KM_DLE]).length + t.length ≤ 20 := by simp at h ⊢; omega
        rw [show stuffBytes (KM_DLE :: t) = KM_DLE :: KM_DLE :: stuffBytes t by
              simp [stuffBytes]]
        rw [rxRun_cons, rxStep_on_dle, rxRun_cons, rxStep_dle_dle _ _ hlen,
            ih _ (bf ++ [KM_DLE]) h2]
        simp
      · have h2 : (bf ++ [b]).length + t.length ≤ 20 := by simp at h ⊢; omega
        rw [show stuffBytes (b :: t) = b :: stuffBytes t by simp [stuffBytes, hb]]
        rw [rxRun_cons, rxStep_on_data _ _ _ hb hlen, ih _ (bf ++ [b]) h2]
        simp

/-- The BCC sendTxBlock appends, written as the XOR accumulated over the
stuffed payload, DLE and ETX. -/
theorem txBcc_eq (p0 : Nat) (rest : List Nat) (h : p0 ≠ KM_DLE) :
    txBcc (p0 :: rest) =
      Nat.xor (Nat.xor (List.foldl Nat.xor p0 (stuffBytes rest)) KM_DLE) KM_ETX := by
  simp [txBcc, stuffBytes, h, List.foldl_append]
  rw [show Nat.xor 0 p0 = p0 from Nat.zero_xor p0]

/-- For a payload whose first byte is not a protocol byte, sendTxBlock
always takes the framing path. -/
theorem sendTxBlock_framed (p0 : Nat) (rest : List Nat)
    (h1 : p0 ≠ KM_STX) (h2 : p0 ≠ KM_DLE) (h3 : p0 ≠ KM_NAK) :
    sendTxBlock (p0 :: rest) = framed (p0 :: rest) := by
  cases rest with
  | nil => simp [sendTxBlock, h1, h2, h3]
  | cons b t => rfl

set_option maxRecDepth 8000 in
/-- A block whose register identifier keys no snapshot field (config
registers, the 0x0400 keep-alive, unknown identifiers) leaves the
scratch snapshot unchanged. -/
theorem parseInfo_unknown (st : Status) (d : List Nat)
    (h : fieldOfReg (regOf d) = none) : (parseInfo st d).1 = st := by
  unfold parseInfo
  generalize hr : regOf d = r
  rw [hr] at h
  by_cases hc0 : r = 0x8000
  · rw [hc0] at h; exact absurd h (by decide)
  rw [if_neg hc0]
  by_cases hc1 : r = 0x8001
  · rw [hc1] at h; exact absurd h (by decide)
  rw [if_neg hc1]
  by_cases hc2 : r = 0x8002
  · rw [hc2] at h; exact absurd h (by decide)
  rw [if_neg hc2]
  by_cases hc3 : r = 0x8003
  · rw [hc3] at h; exact absurd h (by decide)
  rw [if_neg hc3]
  by_cases hc4 : r = 0x8004
  · rw [hc4] at h; exact absurd h (by decide)
  rw [if_neg hc4]
  by_cases hc5 : r = 0x8005
  · rw [hc5] at h; exact absurd h (by decide)
  rw [if_neg hc5]
  by_cases hc6 : r = 0x8006
  · rw [hc6] at h; exact absurd h (by decide)
  rw [if_neg hc6]
  by_cases hc7 : r = 0x8007
  · rw [hc7] at h; exact absurd h (by decide)
  rw [if_neg hc7]
  by_cases hc8 : r = 0x8008
  · rw [hc8] at h; exact absurd h (by decide)
  rw [if_neg hc8]
  by_cases hc9 : r = 0x8009
  · rw [hc9] at h; exact absurd h (by decide)
  rw [if_neg hc9]
  by_cases hc10 : r = 0x800c
  · rw [hc10] at h; exact absurd h (by decide)
  rw [if_neg hc10]
  by_cases hc11 : r = 0x800d
  · rw [hc11] at h; exact absurd h (by decide)
  rw [if_neg hc11]
  by_cases hc12 : r = 0x800e
  · rw [hc12] at h; exact absurd h (by decide)
  rw [if_neg hc12]
  by_cases hc13 : r = 0x8424
  · rw [hc13] at h; exact absurd h (by decide)
  rw [if_neg hc13]
  by_cases hc14 : r = 0x8425
  · rw [hc14] at h; exact absurd h (by decide)
  rw [if_neg hc14]
  by_cases hc15 : r = 0x8426
  · rw [hc15] at h; exact absurd h (by decide)
  rw [if_neg hc15]
  by_cases hc16 : r = 0x8427
  · rw [hc16] at h; exact absurd h (by decide)
  rw [if_neg hc16]
  by_cases hc17 : r = 0x8428
  · rw [hc17] at h; exact absurd h (by decide)
  rw [if_neg hc17]
  by_cases hc18 : r = 0x8429
  · rw [hc18] at h; exact absurd h (by decide)
  rw [if_neg hc18]
  by_cases hc19 : r = 0x882a
  · rw [hc19] at h; exact absurd h (by decide)
  rw [if_neg hc19]
  by_cases hc20 : r = 0x882b
  · rw [hc20] at h; exact absurd h (by decide)
  rw [if_neg hc20]
  by_cases hc21 : r = 0x882c
  · rw [hc21] at h; exact absurd h (by decide)
  rw [if_neg hc21]
  by_cases hc22 : r = 0x882d
  · rw [hc22] at h; exact absurd h (by decide)
  rw [if_neg hc22]
  by_cases hc23 : r = 0x882e
  · rw [hc23] at h; exact absurd h (by decide)
  rw [if_neg hc23]
  by_cases hc24 : r = 0x882f
  · rw [hc24] at h; exact absurd h (by decide)
  rw [if_neg hc24]
  by_cases hc25 : r = 0x8830
  · rw [hc25] at h; exact absurd h (by decide)
  rw [if_neg hc25]
  by_cases hc26 : r = 0x8831
  · rw [hc26] at h; exact absurd h (by decide)
  rw [if_neg hc26]
  by_cases hc27 : r = 0x8832
  · rw [hc27] at h; exact absurd h (by decide)
  rw [if_neg hc27]
  by_cases hc28 : r = 0x8833
  · rw [hc28] at h; exact absurd h (by decide)
  rw [if_neg hc28]
  by_cases hc29 : r = 0x8836
  · rw [hc29] at h; exact absurd h (by decide)
  rw [if_neg hc29]
  by_cases hc30 : r = 0x8837
  · rw [hc30] at h; exact absurd h (by decide)
  rw [if_neg hc30]
  by_cases hc31 : r = 0x8838
  · rw [hc31] at h; exact absurd h (by decide)
  rw [if_neg hc31]
  by_cases hc32 : r = 0x893c
  · rw [hc32] at h; exact absurd h (by decide)
  rw [if_neg hc32]
  by_cases hc33 : r = 0x893d
  · rw [hc33] at h; exact absurd h (by decide)
  rw [if_neg hc33]
  by_cases hc34 : r = 0x893e
  · rw [hc34] at h; exact absurd h (by decide)
  rw [if_neg hc34]
  by_cases hc35 : r = 0x893f
  · rw [hc35] at h; exact absurd h (by decide)
  rw [if_neg hc35]
  by_cases hc36 : r = 0x8940
  · rw [hc36] at h; exact absurd h (by decide)
  rw [if_neg hc36]
  by_cases hc37 : r = 0xaa42
  · rw [hc37] at h; exact absurd h (by decide)
  rw [if_neg hc37]
  by_cases hc38 : r = 0x0000
  · rw [if_pos hc38]; all_goals rfl
  rw [if_neg hc38]
  by_cases hc39 : r = 0x000e
  · rw [if_pos hc39]; all_goals rfl
  rw [if_neg hc39]
  by_cases hc40 : r = 0x0015
  · rw [if_pos hc40]; all_goals rfl
  rw [if_neg hc40]
  by_cases hc41 : r = 0x001c
  · rw [if_pos hc41]; all_goals rfl
  rw [if_neg hc41]
  by_cases hc42 : r = 0x0031
  · rw [if_pos hc42]; all_goals rfl
  rw [if_neg hc42]
  by_cases hc43 : r = 0x004d
  · rw [if_pos hc43]; all_goals rfl
  rw [if_neg hc43]
  by_cases hc44 : r = 0x0070
  · rw [if_pos hc44]; all_goals rfl
  rw [if_neg hc44]
  by_cases hc45 : r = 0x007e
  · rw [if_pos hc45]; all_goals rfl
  rw [if_neg hc45]
  by_cases hc46 : r = 0x0085
  · rw [if_pos hc46]; all_goals rfl
  rw [if_neg hc46]
  by_cases hc47 : r = 0x0093
  · rw [if_pos hc47]; all_goals rfl
  rw [if_neg hc47]
  by_cases hc48 : r = 0x009a
  · rw [if_pos hc48]; all_goals rfl
  rw [if_neg hc48]
  by_cases hc49 : r = 0x00a1
  · rw [if_pos hc49]; all_goals rfl
  rw [if_neg hc49]
  by_cases hc50 : r = 0x00a8
  · rw [if_pos hc50]; all_goals rfl
  rw [if_neg hc50]
  by_cases hc51 : r = 0x0100
  · rw [if_pos hc51]; all_goals rfl
  rw [if_neg hc51]
  by_cases hc52 : r = 0x0400
  · rw [if_pos hc52]; all_goals rfl
  rw [if_neg hc52]
  all_goals rfl

set_option maxRecDepth 8000 in
/-- A block can change at most the snapshot field keyed by its register
identifier: every other field keeps its value. -/
theorem parseInfo_frame (st : Status) (d : List Nat) (f : StatusField)
    (h : fieldOfReg (regOf d) ≠ some f) :
    (parseInfo st d).1 f = st f := by
  unfold parseInfo
  generalize hr : regOf d = r
  rw [hr] at h
  by_cases hc0 : r = 0x8000
  · rw [if_pos hc0]; rw [hc0] at h; exact Function.update_noteq (fun hf => h (by rw [hf]; decide)) _ st
  rw [if_neg hc0]
  by_cases hc1 : r = 0x8001
  · rw [if_pos hc1]; rw [hc1] at h; exact Function.update_noteq (fun hf => h (by rw [hf]; decide)) _ st
  rw [if_neg hc1]
  by_cases hc2 : r = 0x8002
  · rw [if_pos hc2]; rw [hc2] at h; exact Function.update_noteq (fun hf => h (by rw [hf]; decide)) _ st
  rw [if_neg hc2]
  by_cases hc3 : r = 0x8003
  · rw [if_pos hc3]; rw [hc3] at h; exact Function.update_noteq (fun hf => h (by rw [hf]; decide)) _ st
  rw [if_neg hc3]
  by_cases hc4 : r = 0x8004
  · rw [if_pos hc4]; rw [hc4] at h; exact Function.update_noteq (fun hf => h (by rw [hf]; decide)) _ st
  rw [if_neg hc4]
  by_cases hc5 : r = 0x8005
  · rw [if_pos hc5]; rw [hc5] at h; exact Function.update_noteq (fun hf => h (by rw [hf]; decide)) _ st
  rw [if_neg hc5]
  by_cases hc6 : r = 0x8006
  · rw [if_pos hc6]; rw [hc6] at h; exact Function.update_noteq (fun hf => h (by rw [hf]; decide)) _ st
  rw [if_neg hc6]
  by_cases hc7 : r = 0x8007
  · rw [if_pos hc7]; rw [hc7] at h; exact Function.update_noteq (fun hf => h (by rw [hf]; decide)) _ st
  rw [if_neg hc7]
  by_cases hc8 : r = 0x8008
  · rw [if_pos hc8]; rw [hc8] at h; exact Function.update_noteq (fun hf => h (by rw [hf]; decide)) _ st
  rw [if_neg hc8]
  by_cases hc9 : r = 0x8009
  · rw [if_pos hc9]; rw [hc9] at h; exact Function.update_noteq (fun hf => h (by rw [hf]; decide)) _ st
  rw [if_neg hc9]
  by_cases hc10 : r = 0x800c
  · rw [if_pos hc10]; rw [hc10] at h; exact Function.update_noteq (fun hf => h (by rw [hf]; decide)) _ st
  rw [if_neg hc10]
  by_cases hc11 : r = 0x800d
  · rw [if_pos hc11]; rw [hc11] at h; exact Function.update_noteq (fun hf => h (by rw [hf]; decide)) _ st
  rw [if_neg hc11]
  by_cases hc12 : r = 0x800e
  · rw [if_pos hc12]; rw [hc12] at h; exact Function.update_noteq (fun hf => h (by rw [hf]; decide)) _ st
  rw [if_neg hc12]
  by_cases hc13 : r = 0x8424
  · rw [if_pos hc13]; rw [hc13] at h; exact Function.update_noteq (fun hf => h (by rw [hf]; decide)) _ st
  rw [if_neg hc13]
  by_cases hc14 : r = 0x8425
  · rw [if_pos hc14]; rw [hc14] at h; exact Function.update_noteq (fun hf => h (by rw [hf]; decide)) _ st
  rw [if_neg hc14]
  by_cases hc15 : r = 0x8426
  · rw [if_pos hc15]; rw [hc15] at h; exact Function.update_noteq (fun hf => h (by rw [hf]; decide)) _ st
  rw [if_neg hc15]
  by_cases hc16 : r = 0x8427
  · rw [if_pos hc16]; rw [hc16] at h; exact Function.update_noteq (fun hf => h (by rw [hf]; decide)) _ st
  rw [if_neg hc16]
  by_cases hc17 : r = 0x8428
  · rw [if_pos hc17]; rw [hc17] at h; exact Function.update_noteq (fun hf => h (by rw [hf]; decide)) _ st
  rw [if_neg hc17]
  by_cases hc18 : r = 0x8429
  · rw [if_pos hc18]; rw [hc18] at h; exact Function.update_noteq (fun hf => h (by rw [hf]; decide)) _ st
  rw [if_neg hc18]
  by_cases hc19 : r = 0x882a
  · rw [if_pos hc19]; rw [hc19] at h; exact Function.update_noteq (fun hf => h (by rw [hf]; decide)) _ st
  rw [if_neg hc19]
  by_cases hc20 : r = 0x882b
  · rw [if_pos hc20]; rw [hc20] at h; exact Function.update_noteq (fun hf => h (by rw [hf]; decide)) _ st
  rw [if_neg hc20]
  by_cases hc21 : r = 0x882c
  · rw [if_pos hc21]; rw [hc21] at h; exact Function.update_noteq (fun hf => h (by rw [hf]; decide)) _ st
  rw [if_neg hc21]
  by_cases hc22 : r = 0x882d
  · rw [if_pos hc22]; rw [hc22] at h; exact Function.update_noteq (fun hf => h (by rw [hf]; decide)) _ st
  rw [if_neg hc22]
  by_cases hc23 : r = 0x882e
  · rw [if_pos hc23]; rw [hc23] at h; exact Function.update_noteq (fun hf => h (by rw [hf]; decide)) _ st
  rw [if_neg hc23]
  by_cases hc24 : r = 0x882f
  · rw [if_pos hc24]; rw [hc24] at h; exact Function.update_noteq (fun hf => h (by rw [hf]; decide)) _ st
  rw [if_neg hc24]
  by_cases hc25 : r = 0x8830
  · rw [if_pos hc25]; rw [hc25] at h; exact Function.update_noteq (fun hf => h (by rw [hf]; decide)) _ st
  rw [if_neg hc25]
  by_cases hc26 : r = 0x8831
  · rw [if_pos hc26]; rw [hc26] at h; exact Function.update_noteq (fun hf => h (by rw [hf]; decide)) _ st
  rw [if_neg hc26]
  by_cases hc27 : r = 0x8832
  · rw [if_pos hc27]; rw [hc27] at h; exact Function.update_noteq (fun hf => h (by rw [hf]; decide)) _ st
  rw [if_neg hc27]
  by_cases hc28 : r = 0x8833
  · rw [if_pos hc28]; rw [hc28] at h; exact Function.update_noteq (fun hf => h (by rw [hf]; decide)) _ st
  rw [if_neg hc28]
  by_cases hc29 : r = 0x8836
  · rw [if_pos hc29]; rw [hc29] at h; exact Function.update_noteq (fun hf => h (by rw [hf]; decide)) _ st
  rw [if_neg hc29]
  by_cases hc30 : r = 0x8837
  · rw [if_pos hc30]; rw [hc30] at h; exact Function.update_noteq (fun hf => h (by rw [hf]; decide)) _ st
  rw [if_neg hc30]
  by_cases hc31 : r = 0x8838
  · rw [if_pos hc31]; rw [hc31] at h; exact Function.update_noteq (fun hf => h (by rw [hf]; decide)) _ st
  rw [if_neg hc31]
  by_cases hc32 : r = 0x893c
  · rw [if_pos hc32]; rw [hc32] at h; exact Function.update_noteq (fun hf => h (by rw [hf]; decide)) _ st
  rw [if_neg hc32]
  by_cases hc33 : r = 0x893d
  · rw [if_pos hc33]; rw [hc33] at h; exact Function.update_noteq (fun hf => h (by rw [hf]; decide)) _ st
  rw [if_neg hc33]
  by_cases hc34 : r = 0x893e
  · rw [if_pos hc34]; rw [hc34] at h; exact Function.update_noteq (fun hf => h (by rw [hf]; decide)) _ st
  rw [if_neg hc34]
  by_cases hc35 : r = 0x893f
  · rw [if_pos hc35]; rw [hc35] at h; exact Function.update_noteq (fun hf => h (by rw [hf]; decide)) _ st
  rw [if_neg hc35]
  by_cases hc36 : r = 0x8940
  · rw [if_pos hc36]; rw [hc36] at h; exact Function.update_noteq (fun hf => h (by rw [hf]; decide)) _ st
  rw [if_neg hc36]
  by_cases hc37 : r = 0xaa42
  · rw [if_pos hc37]; rw [hc37] at h; exact Function.update_noteq (fun hf => h (by rw [hf]; decide)) _ st
  rw [if_neg hc37]
  by_cases hc38 : r = 0x0000
  · rw [if_pos hc38]; all_goals rfl
  rw [if_neg hc38]
  by_cases hc39 : r = 0x000e
  · rw [if_pos hc39]; all_goals rfl
  rw [if_neg hc39]
  by_cases hc40 : r = 0x0015
  · rw [if_pos hc40]; all_goals rfl
  rw [if_neg hc40]
  by_cases hc41 : r = 0x001c
  · rw [if_pos hc41]; all_goals rfl
  rw [if_neg hc41]
  by_cases hc42 : r = 0x0031
  · rw [if_pos hc42]; all_goals rfl
  rw [if_neg hc42]
  by_cases hc43 : r = 0x004d
  · rw [if_pos hc43]; all_goals rfl
  rw [if_neg hc43]
  by_cases hc44 : r = 0x0070
  · rw [if_pos hc44]; all_goals rfl
  rw [if_neg hc44]
  by_cases hc45 : r = 0x007e
  · rw [if_pos hc45]; all_goals rfl
  rw [if_neg hc45]
  by_cases hc46 : r = 0x0085
  · rw [if_pos hc46]; all_goals rfl
  rw [if_neg hc46]
  by_cases hc47 : r = 0x0093
  · rw [if_pos hc47]; all_goals rfl
  rw [if_neg hc47]
  by_cases hc48 : r = 0x009a
  · rw [if_pos hc48]; all_goals rfl
  rw [if_neg hc48]
  by_cases hc49 : r = 0x00a1
  · rw [if_pos hc49]; all_goals rfl
  rw [if_neg hc49]
  by_cases hc50 : r = 0x00a8
  · rw [if_pos hc50]; all_goals rfl
  rw [if_neg hc50]
  by_cases hc51 : r = 0x0100
  · rw [if_pos hc51]; all_goals rfl
  rw [if_neg hc51]
  by_cases hc52 : r = 0x0400
  · rw [if_pos hc52]; all_goals rfl
  rw [if_neg hc52]
  all_goals rfl

/-- A step taken in the idle state always resets the running BCC to the
byte received. -/
theorem rxStep_idle_bcc (c : Nat) (bf : List Nat) (b : Nat) :
    (rxStep ⟨RxState.KM_RX_IDLE, c, bf⟩ b).state.bcc = b := by
  simp only [rxStep]
  split_ifs <;> rfl

/-- A step taken in the KM_RX_BCC state delivers the buffer when the
final XOR is 0 and sends a NAK otherwise, returning to idle. -/
theorem rxStep_bccState (s : KmState) (h : s.rxStatus = RxState.KM_RX_BCC) (b : Nat) :
    rxStep s b =
      if Nat.xor s.bcc b = 0 then
        ⟨⟨RxState.KM_RX_IDLE, Nat.xor s.bcc b, s.buf⟩, [RxEvent.block s.buf], []⟩
      else
        ⟨⟨RxState.KM_RX_IDLE, Nat.xor s.bcc b, s.buf⟩, [], sendTxBlock KmCNAK⟩ := by
  simp [rxStep, h]

/-! ## Claim theorems -/

/-- C1 counterexample: the claim fails for payloads whose first byte is a
protocol byte.  Encoding the 2-byte payload [0x02, 0x00] and feeding the
wire bytes back into the receiver from the idle state yields no
validated block at all: the leading STX is consumed as a control byte,
so the receiver computes the BCC over a shorter block, the check fails,
and a NAK is sent. -/
theorem c1_counterexample :
    blockPayloads (rxRun kmIdleInit (sendTxBlock [0x02, 0x00])).events = [] ∧
    (rxRun kmIdleInit (sendTxBlock [0x02, 0x00])).events = [RxEvent.ctrl 0x02] ∧
    (rxRun kmIdleInit (sendTxBlock [0x02, 0x00])).tx = [KM_NAK] := by decide

/-- C1 (amended): for every payload P of length 1..20 made of bytes whose
first byte is none of STX, DLE, NAK, encoding P with sendTxBlock and
feeding the produced wire bytes one at a time into the receiver starting
in the idle state (with any residual bcc and buffer) yields exactly one
validated block whose buffer contents equal P, no other report, and no
transmission. -/
theorem c1_roundtrip (P : List Nat) (h1 : 1 ≤ P.length) (h2 : P.length ≤ 20)
    (hbytes : ∀ b ∈ P, b < 256)
    (hstx : P.headD 0 ≠ KM_STX) (hdle : P.headD 0 ≠ KM_DLE) (hnak : P.headD 0 ≠ KM_NAK)
    (c : Nat) (bf : List Nat) :
    rxRun ⟨RxState.KM_RX_IDLE, c, bf⟩ (sendTxBlock P) =
      ⟨⟨RxState.KM_RX_IDLE, 0, P⟩, [RxEvent.block P], []⟩ := by
  cases P with
  | nil => simp at h1
  | cons p0 rest =>
      simp only [List.headD_cons] at hstx hdle hnak
      have hfr : framed (p0 :: rest) =
          p0 :: (stuffBytes rest ++ [KM_DLE, KM_ETX, txBcc (p0 :: rest)]) := by
        simp [framed, stuffBytes, hdle]
      rw [sendTxBlock_framed p0 rest hstx hdle hnak, hfr, rxRun_cons,
          rxStep_idle_data c bf p0 hstx hdle hnak]
      have hlen : ([p0] : List Nat).length + rest.length ≤ 20 := by
        simp at h2 ⊢; omega
      rw [rxRun_append, rxRun_stuff rest p0 [p0] hlen]
      have hx : Nat.xor (Nat.xor (Nat.xor (List.foldl Nat.xor p0 (stuffBytes rest))
          KM_DLE) KM_ETX) (txBcc (p0 :: rest)) = 0 := by
        rw [txBcc_eq p0 rest hdle]
        exact Nat.xor_self _
      rw [rxRun_cons, rxStep_on_dle, rxRun_cons, rxStep_dle_etx, rxRun_cons,
          rxStep_bcc_match _ _ _ hx, rxRun_nil]
      simp

/-- C1 witness: the roundtrip theorem applied to the concrete payload
[0x41, 0x10, 0x02], which exercises DLE stuffing and an embedded STX. -/
theorem c1_roundtrip_witness :
    rxRun ⟨RxState.KM_RX_IDLE, 0, []⟩ (sendTxBlock [0x41, 0x10, 0x02]) =
      ⟨⟨RxState.KM_RX_IDLE, 0, [0x41, 0x10, 0x02]⟩,
       [RxEvent.block [0x41, 0x10, 0x02]], []⟩ :=
  c1_roundtrip [0x41, 0x10, 0x02] (by decide) (by decide) (by decide)
    (by decide) (by decide) (by decide) 0 []

/-- C2: over any input byte sequence from the power-on state the receive
buffer length never exceeds 20 and no handleRxBlock call reports a
buffer longer than 20 bytes; and in the block-reception state with 20
bytes buffered, one further non-DLE byte discards the block and enters
resync with no report and no transmission. -/
theorem c2_buffer_bound :
    (∀ bs : List Nat, (rxRun kmInitState bs).state.buf.length ≤ 20 ∧
        ∀ e ∈ (rxRun kmInitState bs).events, eventLen e ≤ 20) ∧
    (∀ (s : KmState) (b : Nat), s.rxStatus = RxState.KM_RX_ON → s.buf.length = 20 →
        b ≠ KM_DLE →
        (rxStep s b).state.rxStatus = RxState.KM_RX_RESYNC ∧
        (rxStep s b).events = [] ∧ (rxStep s b).tx = []) := by
  constructor
  · intro bs
    exact rxRun_len bs kmInitState (by simp [kmInitState])
  · intro s b hs hlen hb
    have h20 : KM_RX_BUF_LEN ≤ s.buf.length := by
      simp [KM_RX_BUF_LEN, hlen]
    simp [rxStep, hs, hb, h20]

/-- C2 witness: the invariant applied to a concrete run that reports a
control byte, and the overflow step applied to a concrete full buffer. -/
theorem c2_buffer_bound_witness :
    (rxRun kmInitState [0x02]).state.buf.length ≤ 20 ∧
    eventLen (RxEvent.ctrl 0x02) ≤ 20 ∧
    ((rxStep ⟨RxState.KM_RX_ON, 0, List.replicate 20 0⟩ 7).state.rxStatus =
        RxState.KM_RX_RESYNC ∧
      (rxStep ⟨RxState.KM_RX_ON, 0, List.replicate 20 0⟩ 7).events = [] ∧
      (rxStep ⟨RxState.KM_RX_ON, 0, List.replicate 20 0⟩ 7).tx = []) :=
  ⟨(c2_buffer_bound.1 [0x02]).1,
   (c2_buffer_bound.1 [0x02]).2 (RxEvent.ctrl 0x02) (by decide),
   c2_buffer_bound.2 ⟨RxState.KM_RX_ON, 0, List.replicate 20 0⟩ 7 rfl (by decide)
     (by decide)⟩

/-- C3: when a block opened from the idle state has been received up to
the KM_RX_BCC state, the next byte delivers the block to handleRxBlock
exactly when the XOR of all bytes received since the block opening,
including the received BCC byte itself, is 0; on a nonzero XOR a single
NAK byte is sent instead; in either case the receiver returns to the
idle state. -/
theorem c3_bcc_gate (bs : List Nat) (b : Nat)
    (h1 : ∀ i, i < bs.length → 0 < i →
        (rxRun kmIdleInit (bs.take i)).state.rxStatus ≠ RxState.KM_RX_IDLE)
    (h2 : (rxRun kmIdleInit bs).state.rxStatus = RxState.KM_RX_BCC) :
    ((rxStep (rxRun kmIdleInit bs).state b).events =
        [RxEvent.block (rxRun kmIdleInit bs).state.buf] ↔
      List.foldl Nat.xor 0 (bs ++ [b]) = 0) ∧
    (List.foldl Nat.xor 0 (bs ++ [b]) ≠ 0 →
        (rxStep (rxRun kmIdleInit bs).state b).events = [] ∧
        (rxStep (rxRun kmIdleInit bs).state b).tx = [KM_NAK]) ∧
    (rxStep (rxRun kmIdleInit bs).state b).state.rxStatus = RxState.KM_RX_IDLE := by
  have hbcc : (rxRun kmIdleInit bs).state.bcc = List.foldl Nat.xor 0 bs := by
    cases bs with
    | nil => simp [rxRun, kmIdleInit] at h2
    | cons b0 t =>
        have hs1 : (rxStep kmIdleInit b0).state.bcc = b0 := rxStep_idle_bcc 0 [] b0
        have ht : ∀ i, i < t.length →
            (rxRun (rxStep kmIdleInit b0).state (t.take i)).state.rxStatus ≠
              RxState.KM_RX_IDLE := by
          intro i hi
          cases Nat.eq_zero_or_pos i with
          | inl hzero =>
              subst hzero
              cases t with
              | nil => simp at hi
              | cons tb tt =>
                  have := h1 1 (by simp) (by omega)
                  simpa [rxRun, List.take_succ_cons] using this
          | inr hpos =>
              have := h1 (i + 1) (by simp; omega) (by omega)
              simpa [rxRun, List.take_succ_cons] using this
        have := rxRun_bcc t (rxStep kmIdleInit b0).state ht
        rw [rxRun_cons]
        simp only [this, hs1]
        rw [show List.foldl Nat.xor 0 (b0 :: t) = List.foldl Nat.xor b0 t by
              simp [List.foldl]
              rw [show Nat.xor 0 b0 = b0 from Nat.zero_xor b0]]
  have hfold : List.foldl Nat.xor 0 (bs ++ [b]) =
      Nat.xor ((rxRun kmIdleInit bs).state.bcc) b := by
    rw [List.foldl_append, hbcc]
    rfl
  rw [rxStep_bccState _ h2 b]
  by_cases hz : Nat.xor ((rxRun kmIdleInit bs).state.bcc) b = 0
  · rw [if_pos hz]
    refine ⟨by simp [hfold, hz], ?_, rfl⟩
    intro hne
    exact absurd (hfold.trans hz) hne
  · rw [if_neg hz]
    refine ⟨?_, ?_, rfl⟩
    · constructor
      · intro h; simp at h
      · intro h; rw [hfold] at h; exact absurd h hz
    · intro _
      exact ⟨rfl, by rfl⟩

/-- C3 witness: the BCC gate applied to the concrete block 0x41 10 03
with a matching BCC byte 0x52 (delivered) and a mismatching one 0x53
(answered by NAK). -/
theorem c3_bcc_gate_witness :
    ((rxStep (rxRun kmIdleInit [0x41, 0x10, 0x03]).state 0x52).events =
        [RxEvent.block (rxRun kmIdleInit [0x41, 0x10, 0x03]).state.buf] ↔
      List.foldl Nat.xor 0 ([0x41, 0x10, 0x03] ++ [0x52]) = 0) ∧
    (rxStep (rxRun kmIdleInit [0x41, 0x10, 0x03]).state 0x52).state.rxStatus =
      RxState.KM_RX_IDLE ∧
    ((rxStep (rxRun kmIdleInit [0x41, 0x10, 0x03]).state 0x53).events = [] ∧
      (rxStep (rxRun kmIdleInit [0x41, 0x10, 0x03]).state 0x53).tx = [KM_NAK]) :=
  ⟨(c3_bcc_gate [0x41, 0x10, 0x03] 0x52 (by decide) (by decide)).1,
   (c3_bcc_gate [0x41, 0x10, 0x03] 0x52 (by decide) (by decide)).2.2,
   (c3_bcc_gate [0x41, 0x10, 0x03] 0x53 (by decide) (by decide)).2.1 (by decide)⟩

/-- C4 counterexample: the claim says decodeNegTemp maps 0x80 to -128.0,
but the source tests data > 128, so 0x80 = 128 is not negative and maps
to +128.0. -/
theorem c4_counterexample :
    decodeNegTemp 0x80 = 128 ∧ (128 : Rat) ≠ -128 := by
  constructor
  · norm_num [decodeNegTemp]
  · norm_num

/-- C4 (amended): decodeNegTemp maps 0x80 to +128.0 (not -128.0), 0x81
to -127.0, 0x7F to 127.0 and 0x00 to 0.0; for every raw byte strictly
greater than 128 it returns -(256 - raw) and for raw at most 128 it
returns raw. -/
theorem c4_decodeNegTemp :
    (∀ raw : Nat, 128 < raw → decodeNegTemp raw = -((256 : Rat) - (raw : Rat))) ∧
    (∀ raw : Nat, raw ≤ 128 → decodeNegTemp raw = (raw : Rat)) ∧
    decodeNegTemp 0x81 = -127 ∧ decodeNegTemp 0x7F = 127 ∧
    decodeNegTemp 0x00 = 0 ∧ decodeNegTemp 0x80 = 128 := by
  refine ⟨fun raw h => by simp [decodeNegTemp, h],
    fun raw h => by simp [decodeNegTemp, Nat.not_lt.mpr h], ?_, ?_, ?_, ?_⟩ <;>
    norm_num [decodeNegTemp]

/-- C4 witness: the two quantified branches applied at 200 and 50. -/
theorem c4_decodeNegTemp_witness :
    decodeNegTemp 200 = -((256 : Rat) - (200 : Rat)) ∧ decodeNegTemp 50 = (50 : Rat) :=
  ⟨c4_decodeNegTemp.1 200 (by norm_num), c4_decodeNegTemp.2.1 50 (by norm_num)⟩

/-- C5: the Frost cutoff (0x07/0x31) and Outdoor hold (0x07/0x15)
commands cannot accept a negative parameter: cmdPara is uint8_t, so the
C check cmdPara at least -20 is vacuous after integer promotion and
every byte above 10 is rejected.  At the failing input -20 (passed as
byte 0xEC = 236) both commands leave the slot unchanged and publish the
invalid-value message, contradicting the claimed signed range -20..+10;
a small in-range parameter is laid out as the claim says (byte 7 for
frost, byte 4 for outdoor hold). -/
theorem c5_frost_negative_rejected :
    (km271sendCmd SendCmd.KM271_SENDCMD_FROST_AB 236 slot0).1 = slot0 ∧
    (km271sendCmd SendCmd.KM271_SENDCMD_FROST_AB 236 slot0).2 =
      [("/message", PubVal.str "setvalue: frost_ab - invald value")] ∧
    (km271sendCmd SendCmd.KM271_SENDCMD_AUSSENHALT 236 slot0).1 = slot0 ∧
    (km271sendCmd SendCmd.KM271_SENDCMD_AUSSENHALT 236 slot0).2 =
      [("/message", PubVal.str "setvalue: aussenhalt_ab - invald value")] ∧
    (km271sendCmd SendCmd.KM271_SENDCMD_FROST_AB 5 slot0).1 =
      ⟨true, [0x07, 0x31, 0x65, 0x65, 0x65, 0x65, 0x65, 5]⟩ ∧
    (km271sendCmd SendCmd.KM271_SENDCMD_AUSSENHALT 5 slot0).1 =
      ⟨true, [0x07, 0x15, 0x65, 0x65, 5, 0x65, 0x65, 0x65]⟩ := by decide

/-- C6 counterexample: the framed log-mode command on the wire ends in
BCC 0xFD (0xEE xor 0x10 xor 0x03), not 0x7D as the claim states. -/
theorem c6_counterexample :
    (handleRxBlock sess0 [0x10]).2.1 ≠ [0xEE, 0x00, 0x00, 0x10, 0x03, 0x7D] ∧
    (handleRxBlock sess0 [0x10]).2.1 = [0xEE, 0x00, 0x00, 0x10, 0x03, 0xFD] := by decide

/-- C6 (amended): in the start session state, a control DLE makes
handleRxBlock transmit the log-mode command EE 00 00, which appears on
the wire as EE 00 00 10 03 FD, and switches to the log-command-issued
state, leaving the send slot and snapshot untouched. -/
theorem c6_logmode (s : SessionState) (d : List Nat)
    (h1 : s.blockState = TskState.KM_TSK_START) (h2 : dat d 0 = KM_DLE) :
    (handleRxBlock s d).2.1 = [0xEE, 0x00, 0x00, 0x10, 0x03, 0xFD] ∧
    (handleRxBlock s d).1.blockState = TskState.KM_TSK_LG_CMD ∧
    (handleRxBlock s d).1.sendRequest = s.sendRequest ∧
    (handleRxBlock s d).1.sendBuf = s.sendBuf ∧
    (handleRxBlock s d).1.km = s.km := by
  obtain ⟨bs, sr, sb, km⟩ := s
  simp only at h1
  subst h1
  simp [handleRxBlock, h2, KM_DLE, KM_STX]
  decide

/-- C6 witness: the theorem applied to the start-state session and the
single control byte 0x10. -/
theorem c6_logmode_witness :
    (handleRxBlock sess0 [0x10]).2.1 = [0xEE, 0x00, 0x00, 0x10, 0x03, 0xFD] ∧
    (handleRxBlock sess0 [0x10]).1.blockState = TskState.KM_TSK_LG_CMD ∧
    (handleRxBlock sess0 [0x10]).1.sendRequest = sess0.sendRequest ∧
    (handleRxBlock sess0 [0x10]).1.sendBuf = sess0.sendBuf ∧
    (handleRxBlock sess0 [0x10]).1.km = sess0.km :=
  c6_logmode sess0 [0x10] rfl rfl

/-- C7: at the failing input, a 0x8425 block with data byte 0x01
(bit 0 set) received while the HK1 first bitfield is 0 stores 0x01 in
the DHW second bitfield, but the DHW_BW2_load topic publishes 0: the
source reads bit 0 of HeatingCircuitOperatingStates_1 (the HK1 field)
instead of the received DHW byte, whose bit 0 is 1 as the claim
requires. -/
theorem c7_dhw_bw2_load_bug :
    (parseInfo stZero [0x84, 0x25, 0x01]).1 StatusField.HotWaterOperatingStates_2 = 0x01 ∧
    bitRead 0x01 0 = 1 ∧
    (parseInfo stZero [0x84, 0x25, 0x01]).2 =
      [("/status/DHW_BW2_load", PubVal.num 0),
       ("/status/DHW_BW2_manual", PubVal.num 0),
       ("/status/DHW_BW2_reload", PubVal.num 0),
       ("/status/DHW_BW2_off_time_optimization", PubVal.num 0),
       ("/status/DHW_BW2_on_time_optimization", PubVal.num 0),
       ("/status/DHW_BW2_day", PubVal.num 0),
       ("/status/DHW_BW2_hot", PubVal.num 0),
       ("/status/DHW_BW2_priority", PubVal.num 0)] := by decide

/-- C8: for HK1 design temperature (HK1_AUSLEGUNG) parameters 29 and 91
are rejected while 30 and 90 are accepted; for every command, an
out-of-range parameter publishes the rejection message and leaves the
send slot (pending flag and 8-byte buffer) unchanged, while an in-range
parameter arms the pending flag and publishes the received
confirmation. -/
theorem c8_cmd_validation :
    cmdInRange SendCmd.KM271_SENDCMD_HK1_AUSLEGUNG 29 = false ∧
    cmdInRange SendCmd.KM271_SENDCMD_HK1_AUSLEGUNG 91 = false ∧
    cmdInRange SendCmd.KM271_SENDCMD_HK1_AUSLEGUNG 30 = true ∧
    cmdInRange SendCmd.KM271_SENDCMD_HK1_AUSLEGUNG 90 = true ∧
    (∀ (cmd : SendCmd) (para : Nat) (s : CmdSlot), cmdInRange cmd para = false →
        (km271sendCmd cmd para s).1 = s ∧
        (km271sendCmd cmd para s).2 = [("/message", PubVal.str (rejectMsg cmd))]) ∧
    (∀ (cmd : SendCmd) (para : Nat) (s : CmdSlot), cmdInRange cmd para = true →
        (km271sendCmd cmd para s).1.sendRequest = true ∧
        (km271sendCmd cmd para s).2 = [("/message", PubVal.str (acceptMsg cmd))]) := by
  refine ⟨by decide, by decide, by decide, by decide, ?_, ?_⟩
  · intro cmd para s h
    cases cmd <;> simp only [cmdInRange, decide_eq_false_iff_not] at h <;>
      simp only [km271sendCmd, rejectMsg] <;> rw [if_neg h] <;> exact ⟨rfl, rfl⟩
  · intro cmd para s h
    cases cmd <;> simp only [cmdInRange, decide_eq_true_eq] at h <;>
      simp only [km271sendCmd, acceptMsg] <;> rw [if_pos h] <;> exact ⟨rfl, rfl⟩

/-- C8 witness: design temperature parameter 29 rejected with the slot
unchanged, parameter 30 accepted with the pending flag armed. -/
theorem c8_cmd_validation_witness :
    (km271sendCmd SendCmd.KM271_SENDCMD_HK1_AUSLEGUNG 29 slot0).1 = slot0 ∧
    (km271sendCmd SendCmd.KM271_SENDCMD_HK1_AUSLEGUNG 30 slot0).1.sendRequest = true :=
  ⟨(c8_cmd_validation.2.2.2.2.1 SendCmd.KM271_SENDCMD_HK1_AUSLEGUNG 29 slot0
      (by decide)).1,
   (c8_cmd_validation.2.2.2.2.2 SendCmd.KM271_SENDCMD_HK1_AUSLEGUNG 30 slot0
      (by decide)).1⟩

/-- C9: parseInfo modifies at most the snapshot field keyed by the
register identifier of the block; for an identifier that keys no field,
and in particular for the keep-alive identifier 0x0400, the snapshot is
unchanged; and the commit step writes the live snapshot back exactly
when the updated scratch copy differs from it. -/
theorem c9_parse_frame (st : Status) (d : List Nat) :
    (fieldOfReg (regOf d) = none → (parseInfo st d).1 = st) ∧
    (regOf d = 0x0400 → (parseInfo st d).1 = st) ∧
    (∀ f : StatusField, fieldOfReg (regOf d) ≠ some f →
        (parseInfo st d).1 f = st f) ∧
    ((parseInfoCommit st d).wrote = true ↔ (parseInfo st d).1 ≠ st) := by
  refine ⟨fun h => parseInfo_unknown st d h,
    fun h => parseInfo_unknown st d (by rw [h]; rfl),
    fun f h => parseInfo_frame st d f h, ?_⟩
  simp [parseInfoCommit]

/-- C9 witness: an unknown register 0xFF00 and the keep-alive 0x0400
leave an all-zero snapshot unchanged, and a 0x8000 block leaves the
unrelated RoomTargetTemp field unchanged. -/
theorem c9_parse_frame_witness :
    (parseInfo stZero [0xFF, 0x00]).1 = stZero ∧
    (parseInfo stZero [0x04, 0x00, 0x07]).1 = stZero ∧
    (parseInfo stZero [0x80, 0x00, 0xFF]).1 StatusField.RoomTargetTemp =
      stZero StatusField.RoomTargetTemp :=
  ⟨(c9_parse_frame stZero [0xFF, 0x00]).1 (by decide),
   (c9_parse_frame stZero [0x04, 0x00, 0x07]).2.1 (by decide),
   (c9_parse_frame stZero [0x80, 0x00, 0xFF]).2.2.1 StatusField.RoomTargetTemp
     (by decide)⟩

/-- C10: with a null access mutex (before km271ProtInit has created it)
km271GetStatus performs no copy and the caller-supplied destination is
unmodified; once the mutex exists the snapshot is copied. -/
theorem c10_getStatus_uninit (kmState pDestStatus : Status) :
    km271GetStatus false kmState pDestStatus = pDestStatus ∧
    km271GetStatus km271ProtInit kmState pDestStatus = kmState :=
  ⟨rfl, rfl⟩
